import Mathlib

/-!
# LillyTask front end (`src/frontend/script.js`)

A shallow embedding of the browser client: the JavaScript values that
`response.json()` can deliver, the coercions the script applies to them
(`typeof`, truthiness, `String.prototype.trim`, `Number(...)`,
`Number.prototype.toFixed(2)`, string conversion), the part of the document the
script touches (status element, table body), and the five operations
`showStatus`, `renderMedicines`, `fetchAndRenderMedicines`, the three form
handlers and `handleAverageClick`.

Numbers are IEEE-754 doubles, represented exactly: a finite number is
`(-1)^neg * m * 2^e`.  All conversions are computed on exact integers.

Every operation is a function from the page before to a result (returned
normally, or thrown) and the page after.  An `await` is modelled by taking the
outcome of the awaited request as an argument.  A handler is run until nothing
is pending, with no other event in between, so the reload that a successful
mutation starts without awaiting it is run to its end inside the handler.
-/

namespace LillyTask

/-! ## Numbers -/

/-- A JavaScript Number.  `fin neg m e` denotes `(-1)^neg * m * 2^e`; the two
zeros are `fin false 0 _` and `fin true 0 _`. -/
inductive JSNum where
  | nan
  | inf (neg : Bool)
  | fin (neg : Bool) (m : Nat) (e : Int)
deriving DecidableEq, Repr

/-- Number of binary digits of `n` (`0` for `0`). -/
def bitLen : Nat → Nat → Nat
  | 0, _ => 0
  | fuel + 1, n => if n = 0 then 0 else 1 + bitLen fuel (n / 2)

/-- Number of decimal digits of `n` (`0` for `0`). -/
def decLen : Nat → Nat → Nat
  | 0, _ => 0
  | fuel + 1, n => if n = 0 then 0 else 1 + decLen fuel (n / 10)

/-- The non-negative rational `m * 2^e` as a fraction `(numerator, denominator)`. -/
def dyadicFrac (m : Nat) (e : Int) : Nat × Nat :=
  if 0 ≤ e then (m * 2 ^ e.toNat, 1) else (m, 2 ^ (-e).toNat)

/-- The magnitude `m * 2^e` with the factors of two moved out of `m`
(`(0, 0)` for zero), so that equal magnitudes have equal representations. -/
def stripTwos : Nat → Nat → Int → Nat × Int
  | 0, m, e => (m, e)
  | fuel + 1, m, e =>
    if m = 0 then (0, 0)
    else if m % 2 = 0 then stripTwos fuel (m / 2) (e + 1)
    else (m, e)

/-- The double nearest to `(-1)^neg * num / den`, ties to even
(IEEE-754 binary64 round-to-nearest: 53-bit significand, least exponent
`-1074`, overflow to infinity). -/
def roundDouble (neg : Bool) (num den : Nat) : JSNum :=
  if num = 0 ∨ den = 0 then .fin neg 0 0 else
    let a : Int := (bitLen num num : Int) - 1
    let b : Int := (bitLen den den : Int) - 1
    -- `t = ⌊log2 (num / den)⌋`
    let t : Int := if den * 2 ^ a.toNat ≤ num * 2 ^ b.toNat then a - b else a - b - 1
    let e : Int := max (t - 52) (-1074)
    let N : Nat := if 0 ≤ e then num else num * 2 ^ (-e).toNat
    let D : Nat := if 0 ≤ e then den * 2 ^ e.toNat else den
    let q := N / D
    let r := N % D
    let q1 := if D < 2 * r ∨ (2 * r = D ∧ q % 2 = 1) then q + 1 else q
    if 972 ≤ e ∨ (e = 971 ∧ 2 ^ 53 ≤ q1) then .inf neg
    else
      let c := stripTwos q1 q1 e
      .fin neg c.1 c.2

/-- Two finite magnitudes `m₁ * 2^e₁` and `m₂ * 2^e₂` denote the same real. -/
def sameMagnitude (m₁ : Nat) (e₁ : Int) (m₂ : Nat) (e₂ : Int) : Bool :=
  let lo := min e₁ e₂
  m₁ * 2 ^ (e₁ - lo).toNat == m₂ * 2 ^ (e₂ - lo).toNat

/-- Does the decimal `s * 10^p` round to the double `m * 2^e`? -/
def roundsTo (s : Nat) (p : Int) (m : Nat) (e : Int) : Bool :=
  match (if 0 ≤ p then roundDouble false (s * 10 ^ p.toNat) 1
         else roundDouble false s (10 ^ (-p).toNat)) with
  | .fin _ m1 e1 => sameMagnitude m1 e1 m e
  | _ => false

/-- Least `j` (from the given start) with `den ≤ num * 10^(j+1)`. -/
def leadingZeros (num den : Nat) : Nat → Nat → Nat
  | 0, j => j
  | fuel + 1, j => if den ≤ num * 10 ^ (j + 1) then j else leadingZeros num den fuel (j + 1)

/-- Decimal position of a positive fraction: the `n` with
`10^(n-1) ≤ num/den < 10^n`. -/
def decimalPosition (num den : Nat) : Int :=
  if den ≤ num then (decLen (num / den) (num / den) : Int)
  else -((leadingZeros num den den 0 : Nat) : Int)

/-- Twice the distance between `s * 10^p` and `num / den`, scaled by the common
denominator, for comparing candidates that share `p`. -/
def candidateError (num den : Nat) (s : Nat) (p : Int) : Nat :=
  if 0 ≤ p then
    let v := s * 10 ^ p.toNat * den
    if v ≤ num then num - v else v - num
  else
    let v := s * den
    let w := num * 10 ^ (-p).toNat
    if v ≤ w then w - v else v - w

/-- The candidates `(n, s)` with `k` digits whose value `s * 10^(n-k)` rounds to
the double `m * 2^e`, for the decimal positions `n0` and `n0 + 1`. -/
def shortestCandidates (m : Nat) (e : Int) (num den : Nat) (n0 : Int) (k : Nat) :
    List (Int × Nat) :=
  let forPos (n : Int) : List (Int × Nat) :=
    let p : Int := n - k
    let lo : Nat := if 0 ≤ p then num / (den * 10 ^ p.toNat) else num * 10 ^ (-p).toNat / den
    ([lo, lo + 1].filter
      (fun s => decide (10 ^ (k - 1) ≤ s) && decide (s < 10 ^ k) && roundsTo s p m e)).map
      (fun s => (n, s))
  forPos n0 ++ forPos (n0 + 1)

/-- Among candidates (all of the same digit count `k`) the one closest to
`num / den`; on a tie the even `s`. -/
def pickClosest (num den : Nat) (k : Nat) : List (Int × Nat) → Option (Int × Nat)
  | [] => none
  | c :: cs =>
    match pickClosest num den k cs with
    | none => some c
    | some d =>
      -- compare at the finer of the two scales
      let pc : Int := c.1 - k
      let pd : Int := d.1 - k
      let lo := min pc pd
      let ec := candidateError num den (c.2 * 10 ^ (pc - lo).toNat) lo
      let ed := candidateError num den (d.2 * 10 ^ (pd - lo).toNat) lo
      if ec < ed then some c
      else if ed < ec then some d
      else if c.2 % 2 = 0 then some c else some d

/-- Search for the least digit count, from `k` upwards; when the budget is
spent the `k`-digit truncation is taken. -/
def shortestSearch (m : Nat) (e : Int) (num den : Nat) (n0 : Int) : Nat → Nat → Nat × Int × Nat
  | 0, k =>
    let p : Int := n0 - k
    (k, n0, if 0 ≤ p then num / (den * 10 ^ p.toNat) else num * 10 ^ (-p).toNat / den)
  | fuel + 1, k =>
    match pickClosest num den k (shortestCandidates m e num den n0 k) with
    | some c => (k, c.1, c.2)
    | none => shortestSearch m e num den n0 fuel (k + 1)

/-- The shortest decimal `(k, n, s)` of `Number::toString`: `k ≥ 1` least with
some `s` of `k` digits such that `s * 10^(n-k)` rounds to the double; 17 digits
always suffice for a double. -/
def shortestDigits (m : Nat) (e : Int) : Nat × Int × Nat :=
  let f := dyadicFrac m e
  shortestSearch m e f.1 f.2 (decimalPosition f.1 f.2) 17 1

/-- Decimal digits of a natural number. -/
def natDigits (n : Nat) : List Char := Nat.toDigits 10 n

/-- The text of `Number::toString` once `k`, `n` and `s` are known
(ECMA-262, Number::toString, steps on `k ≤ n ≤ 21`, `0 < n ≤ 21`,
`-6 < n ≤ 0` and exponent notation). -/
def formatDigits (k : Nat) (n : Int) (s : Nat) : List Char :=
  let ds := natDigits s
  if (k : Int) ≤ n ∧ n ≤ 21 then ds ++ List.replicate (n - k).toNat '0'
  else if 0 < n ∧ n ≤ 21 then ds.take n.toNat ++ ['.'] ++ ds.drop n.toNat
  else if -6 < n ∧ n ≤ 0 then ['0', '.'] ++ List.replicate (-n).toNat '0' ++ ds
  else
    let ex : Int := n - 1
    let tail := ['e', if 0 ≤ ex then '+' else '-'] ++ natDigits ex.natAbs
    if k = 1 then ds ++ tail else ds.take 1 ++ ['.'] ++ ds.drop 1 ++ tail

/-- Result of `Number::toString(x)` (radix 10), as characters. -/
def numberToChars : JSNum → List Char
  | .nan => "NaN".data
  | .inf false => "Infinity".data
  | .inf true => "-Infinity".data
  | .fin neg m e =>
    if m = 0 then ['0'] else
      let d := shortestDigits m e
      (if neg then ['-'] else []) ++ formatDigits d.1 d.2.1 d.2.2

/-- Result of `Number::toString(x)`. -/
def numberToString (x : JSNum) : String := ⟨numberToChars x⟩

/-- Result of `Number.prototype.toFixed(2)`: a non-finite value is printed by
`Number::toString`; a magnitude of at least `10^21` likewise (after the sign);
otherwise the integer `n` nearest to `100 * |x|` (the larger on a tie) is
printed with a point before its last two digits and a leading `-` when
`x < 0`. -/
def toFixed2 : JSNum → String
  | .fin neg m e =>
    let f := dyadicFrac m e
    let sign : List Char := if neg ∧ m ≠ 0 then ['-'] else []
    if 10 ^ 21 * f.2 ≤ f.1 then ⟨sign ++ numberToChars (.fin false m e)⟩
    else
      let n := (200 * f.1 + f.2) / (2 * f.2)
      let ds := natDigits n
      let ds := List.replicate (3 - ds.length) '0' ++ ds
      ⟨sign ++ ds.take (ds.length - 2) ++ ['.'] ++ ds.drop (ds.length - 2)⟩
  | x => numberToString x

/-! ## Strings -/

/-- The characters `String.prototype.trim` strips and `Number(...)` skips around
a numeric literal: WhiteSpace (TAB, VT, FF, SP, NBSP, ZWNBSP and the Unicode
space separators) and LineTerminator (LF, CR, LS, PS). -/
def isJSWhiteSpace (c : Char) : Bool :=
  let n := c.toNat
  n == 0x09 || n == 0x0A || n == 0x0B || n == 0x0C || n == 0x0D || n == 0x20 ||
  n == 0xA0 || n == 0x1680 || (0x2000 ≤ n && n ≤ 0x200A) || n == 0x2028 ||
  n == 0x2029 || n == 0x202F || n == 0x205F || n == 0x3000 || n == 0xFEFF

/-- Characters of a string with leading and trailing white space removed. -/
def trimChars (cs : List Char) : List Char :=
  ((cs.dropWhile isJSWhiteSpace).reverse.dropWhile isJSWhiteSpace).reverse

/-- Result of `String.prototype.trim`. -/
def jsTrim (s : String) : String := ⟨trimChars s.data⟩

/-- Value of a run of decimal digits. -/
def digitsValue (ds : List Char) : Nat :=
  ds.foldl (fun a c => 10 * a + (c.toNat - 48)) 0

/-- Value of a hexadecimal, octal or binary digit, when it is one for the radix. -/
def radixDigit (radix : Nat) (c : Char) : Option Nat :=
  let n := c.toNat
  let v : Option Nat :=
    if 48 ≤ n ∧ n ≤ 57 then some (n - 48)
    else if 97 ≤ n ∧ n ≤ 102 then some (n - 87)
    else if 65 ≤ n ∧ n ≤ 70 then some (n - 55)
    else none
  match v with
  | some d => if d < radix then some d else none
  | none => none

/-- Value of a non-empty run of digits in the given radix. -/
def radixValue (radix : Nat) : List Char → Option Nat
  | [] => none
  | cs => cs.foldl (fun acc c =>
      match acc, radixDigit radix c with
      | some a, some d => some (radix * a + d)
      | _, _ => none) (some 0)

/-- The optional ExponentPart that ends a decimal literal: nothing, or `e`/`E`,
an optional sign and at least one digit. -/
def parseExponent : List Char → Option Int
  | [] => some 0
  | c :: rest =>
    if c = 'e' ∨ c = 'E' then
      match rest with
      | '+' :: ds => if ds ≠ [] ∧ ds.all Char.isDigit then some (digitsValue ds) else none
      | '-' :: ds => if ds ≠ [] ∧ ds.all Char.isDigit then some (-(digitsValue ds : Int)) else none
      | ds => if ds ≠ [] ∧ ds.all Char.isDigit then some (digitsValue ds) else none
    else none

/-- StrUnsignedDecimalLiteral without `Infinity`: `digits . digits? exp?`,
`. digits exp?` or `digits exp?`, as the integer of all its digits and the
decimal exponent to apply to it. -/
def parseUnsignedDecimal (cs : List Char) : Option (Nat × Int) :=
  let ip := cs.takeWhile Char.isDigit
  match cs.dropWhile Char.isDigit with
  | '.' :: r =>
    let fp := r.takeWhile Char.isDigit
    if ip = [] ∧ fp = [] then none
    else
      match parseExponent (r.dropWhile Char.isDigit) with
      | some ex => some (digitsValue (ip ++ fp), ex - fp.length)
      | none => none
  | r =>
    if ip = [] then none
    else
      match parseExponent r with
      | some ex => some (digitsValue ip, ex)
      | none => none

/-- The double of the decimal `mant * 10^ex`. -/
def decimalToDouble (neg : Bool) (mant : Nat) (ex : Int) : JSNum :=
  if 0 ≤ ex then roundDouble neg (mant * 10 ^ ex.toNat) 1
  else roundDouble neg mant (10 ^ (-ex).toNat)

/-- StrDecimalLiteral after its optional sign. -/
def parseSignedBody (neg : Bool) (cs : List Char) : JSNum :=
  if cs = "Infinity".data then .inf neg
  else
    match parseUnsignedDecimal cs with
    | some (mant, ex) => decimalToDouble neg mant ex
    | none => .nan

/-- StringToNumber on the characters left after trimming. -/
def parseNumeric : List Char → JSNum
  | [] => .fin false 0 0
  | '0' :: 'x' :: ds | '0' :: 'X' :: ds =>
    match radixValue 16 ds with
    | some v => roundDouble false v 1
    | none => .nan
  | '0' :: 'o' :: ds | '0' :: 'O' :: ds =>
    match radixValue 8 ds with
    | some v => roundDouble false v 1
    | none => .nan
  | '0' :: 'b' :: ds | '0' :: 'B' :: ds =>
    match radixValue 2 ds with
    | some v => roundDouble false v 1
    | none => .nan
  | '+' :: cs => parseSignedBody false cs
  | '-' :: cs => parseSignedBody true cs
  | cs => parseSignedBody false cs

/-- Result of `Number(s)` for a string `s` (ECMA-262 StringToNumber): white
space around the literal is ignored, the empty literal is `+0`, anything that
is not a numeric literal is `NaN`. -/
def stringToNumber (s : String) : JSNum := parseNumeric (trimChars s.data)

/-! ## Values decoded from JSON -/

/-- What the script throws or has thrown at it. -/
inductive Thrown where
  /-- `new Error(message)` raised by the script. -/
  | error (message : String)
  /-- A TypeError of the runtime: a property read on `null`/`undefined`, or an
  object that cannot be converted to a primitive. -/
  | typeError
  /-- The rejection of `response.json()` on a body that is not JSON. -/
  | syntaxError
  /-- The rejection of `fetch` when the request cannot be made. -/
  | networkError
  /-- The DOMException of `classList.add` on a token with ASCII white space. -/
  | invalidCharacter
deriving DecidableEq, Repr

deriving instance DecidableEq for Except

/-- A JavaScript value as `JSON.parse` builds it, and `undefined` (the result of
reading a property that is not there).  An object is the list of its own
properties; where a key is listed twice the first entry is the property. -/
inductive JSValue where
  | undefined
  | null
  | bool (b : Bool)
  | num (x : JSNum)
  | str (s : String)
  | arr (items : List JSValue)
  | obj (props : List (String × JSValue))

/-- Own property `key` of a property list. -/
def lookupProp (key : String) : List (String × JSValue) → Option JSValue
  | [] => none
  | (k, v) :: rest => if k = key then some v else lookupProp key rest

/-- The member read `v.key` for a key that no built-in prototype defines
(`medicines`, `name`, `price`, `error`, `message`, `average_price`, `count`):
a TypeError on `undefined` and `null`, the own property of an object,
`undefined` otherwise. -/
def getProp (v : JSValue) (key : String) : Except Thrown JSValue :=
  match v with
  | .undefined => .error .typeError
  | .null => .error .typeError
  | .obj props => .ok ((lookupProp key props).getD .undefined)
  | _ => .ok .undefined

/-- ToBoolean: `undefined`, `null`, `false`, `±0`, `NaN` and `""` are falsy. -/
def truthy : JSValue → Bool
  | .undefined => false
  | .null => false
  | .bool b => b
  | .num .nan => false
  | .num (.fin _ m _) => m != 0
  | .num (.inf _) => true
  | .str s => s.data != []
  | .arr _ => true
  | .obj _ => true

/-- `Array.isArray(v)`. -/
def isArray : JSValue → Bool
  | .arr _ => true
  | _ => false

/-- The text of one array element inside `join`, given its ToString result:
`undefined` and `null` print empty. -/
def elementString (v : JSValue) (text : Except Thrown String) : Except Thrown String :=
  match v with
  | .undefined => .ok ""
  | .null => .ok ""
  | _ => text

mutual
/-- ToString.  An array prints as `join(",")` does; an object prints as
`[object Object]` through `Object.prototype.toString`, unless it has an own
`toString` property (never callable in decoded JSON), in which case no
primitive can be produced and a TypeError is raised. -/
def toStringJS : JSValue → Except Thrown String
  | .undefined => .ok "undefined"
  | .null => .ok "null"
  | .bool true => .ok "true"
  | .bool false => .ok "false"
  | .num x => .ok (numberToString x)
  | .str s => .ok s
  | .arr items => joinItems items
  | .obj props =>
    match lookupProp "toString" props with
    | some _ => .error .typeError
    | none => .ok "[object Object]"
/-- The text of `Array.prototype.join(",")`. -/
def joinItems : List JSValue → Except Thrown String
  | [] => .ok ""
  | [v] => elementString v (toStringJS v)
  | v :: w :: rest =>
    match elementString v (toStringJS v), joinItems (w :: rest) with
    | .ok a, .ok b => .ok (a ++ "," ++ b)
    | .error t, _ => .error t
    | _, .error t => .error t
end

/-- ToNumber, as applied by `Number(v)`. -/
def toNumber : JSValue → Except Thrown JSNum
  | .undefined => .ok .nan
  | .null => .ok (.fin false 0 0)
  | .bool true => .ok (.fin false 1 0)
  | .bool false => .ok (.fin false 0 0)
  | .num x => .ok x
  | .str s => .ok (stringToNumber s)
  | v =>
    match toStringJS v with
    | .ok s => .ok (stringToNumber s)
    | .error t => .error t

/-! ## The document and the network -/

/-- The element with id `status`: its text and its `class` attribute. -/
structure StatusEl where
  textContent : String
  className : String
deriving DecidableEq, Repr

/-- A `td` element: its text and its `colSpan` (1 unless set). -/
structure Cell where
  textContent : String
  colSpan : Nat := 1
deriving DecidableEq, Repr

/-- A `tr` element: its cells in order. -/
abbrev Row := List Cell

/-- What the script does to the outside, in the order it does it. -/
inductive Effect where
  /-- A call `event.preventDefault()`. -/
  | preventDefault
  /-- A call `fetch(url, options)` with the given method; `body` lists the pairs
  appended to the `URLSearchParams`, `none` when the call passes no body. -/
  | fetch (method url : String) (body : Option (List (String × String)))
  /-- A call `showStatus(message, type)`. -/
  | showStatus (message : JSValue) (type : String)
  /-- A call `renderMedicines(medicines)`. -/
  | renderMedicines (medicines : JSValue)
  /-- A call `form.reset()`. -/
  | formReset
  /-- A call `console.error(label, error)`. -/
  | consoleError (label : String) (error : Thrown)

/-- The part of the page the script reads and writes: the status element and
the table body (each `none` when the document has no such element) and the
effects performed so far. -/
structure Page where
  status : Option StatusEl
  tbody : Option (List Row)
  trace : List Effect

/-- Record an effect. -/
def Page.log (p : Page) (e : Effect) : Page := { p with trace := p.trace ++ [e] }

/-- The body of a response as `response.json()` delivers it: a decoded value, or
a rejection when the body is not JSON. -/
inductive Body where
  | json (data : JSValue)
  | malformed

/-- How a `fetch` call ends: rejected, or resolved with a response. -/
inductive FetchResult where
  | networkError
  | response (status : Nat) (body : Body)

/-- The `ok` flag of a response: status in the range 200-299. -/
def responseOk (status : Nat) : Bool := decide (200 ≤ status) && decide (status ≤ 299)

/-- The fields of a submitted form as `form.querySelector(sel)?.value` reads
them: `none` when the form has no such input. -/
structure Form where
  name : Option String
  price : Option String

/-- Base URL of the API (`API_BASE_URL`). -/
def API_BASE_URL : String := "http://localhost:8000"

/-- ASCII white space (TAB, LF, FF, CR, SP), which `classList.add` rejects inside
a token. -/
def isAsciiWhitespace (c : Char) : Bool :=
  let n := c.toNat
  n == 0x09 || n == 0x0A || n == 0x0C || n == 0x0D || n == 0x20

/-- The string a `textContent` assignment stores: empty for `null` and
`undefined`, ToString of the value otherwise. -/
def textContentOf : JSValue → Except Thrown String
  | .undefined => .ok ""
  | .null => .ok ""
  | v => toStringJS v

/-! ## The script -/

/-- Embeds `showStatus(message, type)`: nothing without a status element;
otherwise the text is set, the class is cleared and `status-<type>` is added. -/
def showStatus (message : JSValue) (type : String) (p : Page) : Except Thrown Unit × Page :=
  let p := p.log (.showStatus message type)
  match p.status with
  | none => (.ok (), p)
  | some _ =>
    match textContentOf message with
    | .error t => (.error t, p)
    | .ok text =>
      if type.data.any isAsciiWhitespace then
        (.error .invalidCharacter, { p with status := some ⟨text, ""⟩ })
      else
        (.ok (), { p with status := some ⟨text, "status-" ++ type⟩ })

/-- The `safeName` of an entry: `med.name` when it is a string that is not
blank after trimming, the placeholder otherwise. -/
def safeName (med : JSValue) : Except Thrown String :=
  match getProp med "name" with
  | .error t => .error t
  | .ok (.str s) => .ok (if truthy (.str (jsTrim s)) then s else "Unknown name")
  | .ok _ => .ok "Unknown name"

/-- The `safePriceDisplay` of an entry: `"N/A"` unless `med.price` is neither
`undefined` nor `null` and `Number(med.price)` is not `NaN`, in which case it
is `toFixed(2)` of that number. -/
def safePriceDisplay (med : JSValue) : Except Thrown String :=
  match getProp med "price" with
  | .error t => .error t
  | .ok .undefined => .ok "N/A"
  | .ok .null => .ok "N/A"
  | .ok price =>
    match toNumber price with
    | .error t => .error t
    | .ok .nan => .ok "N/A"
    | .ok x => .ok (toFixed2 x)

/-- The row built for one entry: a name cell and a price cell. -/
def renderRow (med : JSValue) : Except Thrown Row :=
  match safeName med with
  | .error t => .error t
  | .ok name =>
    match safePriceDisplay med with
    | .error t => .error t
    | .ok price => .ok [⟨name, 1⟩, ⟨price, 1⟩]

/-- The `forEach` of `renderMedicines`: rows are appended one by one to the
rows already there; an entry that throws ends the loop with the rows appended
so far left in place. -/
def renderRows : List JSValue → List Row → Except Thrown Unit × List Row
  | [], rows => (.ok (), rows)
  | med :: rest, rows =>
    match renderRow med with
    | .error t => (.error t, rows)
    | .ok row => renderRows rest (rows ++ [row])

/-- The row shown for an empty collection. -/
def placeholderRow : Row := [⟨"No medicines available.", 2⟩]

/-- Embeds `renderMedicines(medicines)`. -/
def renderMedicines (medicines : JSValue) (p : Page) : Except Thrown Unit × Page :=
  let p := p.log (.renderMedicines medicines)
  match p.tbody with
  | none => (.ok (), p)
  | some _ =>
    match medicines with
    | .arr (med :: rest) =>
      let r := renderRows (med :: rest) []
      (r.1, { p with tbody := some r.2 })
    | _ => (.ok (), { p with tbody := some [placeholderRow] })

/-- The `length` of an array value (`0` for anything else). -/
def arrayLength : JSValue → Nat
  | .arr items => items.length
  | _ => 0

/-- The `try` block of `fetchAndRenderMedicines`. -/
def fetchAndRenderTry (reply : FetchResult) (p : Page) : Except Thrown Unit × Page :=
  let p := p.log (.fetch "GET" (API_BASE_URL ++ "/medicines") none)
  match reply with
  | .networkError => (.error .networkError, p)
  | .response status body =>
    if responseOk status then
      match body with
      | .malformed => (.error .syntaxError, p)
      | .json data =>
        match getProp data "medicines" with
        | .error t => (.error t, p)
        | .ok v =>
          let medicines := if isArray v then v else .arr []
          match renderMedicines medicines p with
          | (.error t, p) => (.error t, p)
          | (.ok _, p) =>
            showStatus
              (.str ("Loaded " ++ String.mk (natDigits (arrayLength medicines)) ++ " medicines."))
              "success" p
    else (.error (.error ("HTTP error " ++ String.mk (natDigits status))), p)

/-- Embeds `fetchAndRenderMedicines()`, given how its request ends. -/
def fetchAndRenderMedicines (reply : FetchResult) (p : Page) : Except Thrown Unit × Page :=
  match showStatus (.str "Loading medicines...") "info" p with
  | (.error t, p) => (.error t, p)
  | (.ok _, p) =>
    match fetchAndRenderTry reply p with
    | (.ok _, p) => (.ok (), p)
    | (.error t, p) =>
      showStatus (.str "Failed to load medicines. Please try again.") "error"
        (p.log (.consoleError "Failed to fetch medicines:" t))

/-- Falsiness of a field value read through `?.value`: the input is missing or
its value is the empty string. -/
def isBlank : Option String → Bool
  | none => true
  | some s => s.data == []

/-- What follows the `fetch` call inside the `try` block of a form handler:
the body is decoded whatever the status; a response that is not `ok`, or whose
`error` is truthy, raises `new Error(data.error || failed)`; otherwise
`data.message || success` is shown, the form is reset and the list is
reloaded without being awaited. -/
def afterSubmit (failed success : String) (reply reload : FetchResult) (p : Page) :
    Except Thrown Unit × Page :=
  match reply with
  | .networkError => (.error .networkError, p)
  | .response _ .malformed => (.error .syntaxError, p)
  | .response status (.json data) =>
    let raise : Except Thrown Unit × Page :=
      match getProp data "error" with
      | .error t => (.error t, p)
      | .ok err =>
        match toStringJS (if truthy err then err else .str failed) with
        | .error t => (.error t, p)
        | .ok text => (.error (.error text), p)
    if responseOk status then
      match getProp data "error" with
      | .error t => (.error t, p)
      | .ok err =>
        if truthy err then raise
        else
          match getProp data "message" with
          | .error t => (.error t, p)
          | .ok msg =>
            match showStatus (if truthy msg then msg else .str success) "success" p with
            | (.error t, p) => (.error t, p)
            | (.ok _, p) => (.ok (), (fetchAndRenderMedicines reload (p.log .formReset)).2)
    else raise

/-- Embeds `handleCreate(event)`, given the submitted form, how the POST ends
and how the reload that may follow ends. -/
def handleCreate (form : Form) (reply reload : FetchResult) (p : Page) :
    Except Thrown Unit × Page :=
  let p := p.log .preventDefault
  let name := form.name.map jsTrim
  let price := form.price
  if isBlank name || isBlank price then
    showStatus (.str "Please provide both name and price.") "error" p
  else
    let p := p.log (.fetch "POST" (API_BASE_URL ++ "/create")
      (some [("name", name.getD ""), ("price", price.getD "")]))
    match afterSubmit "Create failed" "Medicine created successfully." reply reload p with
    | (.ok _, p) => (.ok (), p)
    | (.error t, p) =>
      showStatus (.str "Failed to create medicine.") "error" (p.log (.consoleError "Create error:" t))

/-- Embeds `handleUpdate(event)`. -/
def handleUpdate (form : Form) (reply reload : FetchResult) (p : Page) :
    Except Thrown Unit × Page :=
  let p := p.log .preventDefault
  let name := form.name.map jsTrim
  let price := form.price
  if isBlank name || isBlank price then
    showStatus (.str "Please provide both name and new price.") "error" p
  else
    let p := p.log (.fetch "POST" (API_BASE_URL ++ "/update")
      (some [("name", name.getD ""), ("price", price.getD "")]))
    match afterSubmit "Update failed" "Medicine updated successfully." reply reload p with
    | (.ok _, p) => (.ok (), p)
    | (.error t, p) =>
      showStatus (.str "Failed to update medicine.") "error" (p.log (.consoleError "Update error:" t))

/-- Embeds `handleDelete(event)`; only the name field of the form is read. -/
def handleDelete (form : Form) (reply reload : FetchResult) (p : Page) :
    Except Thrown Unit × Page :=
  let p := p.log .preventDefault
  let name := form.name.map jsTrim
  if isBlank name then
    showStatus (.str "Please provide the name of the medicine to delete.") "error" p
  else
    let p := p.log (.fetch "DELETE" (API_BASE_URL ++ "/delete") (some [("name", name.getD "")]))
    match afterSubmit "Delete failed" "Medicine deleted successfully." reply reload p with
    | (.ok _, p) => (.ok (), p)
    | (.error t, p) =>
      showStatus (.str "Failed to delete medicine.") "error" (p.log (.consoleError "Delete error:" t))

/-- `data.count === 0`: the count is the number zero. -/
def isNumberZero : JSValue → Bool
  | .num (.fin _ m _) => m == 0
  | _ => false

/-- `v == null`: the value is `null` or `undefined`. -/
def isNullish : JSValue → Bool
  | .undefined => true
  | .null => true
  | _ => false

/-- The `try` block of `handleAverageClick`. -/
def averageTry (reply : FetchResult) (p : Page) : Except Thrown Unit × Page :=
  let p := p.log (.fetch "GET" (API_BASE_URL ++ "/medicines/average-price") none)
  match reply with
  | .networkError => (.error .networkError, p)
  | .response status body =>
    if responseOk status then
      match body with
      | .malformed => (.error .syntaxError, p)
      | .json data =>
        match getProp data "average_price" with
        | .error t => (.error t, p)
        | .ok avg =>
          let noPrices := showStatus (.str "No valid prices available to calculate an average.") "info" p
          if isNullish avg then noPrices
          else
            match getProp data "count" with
            | .error t => (.error t, p)
            | .ok count =>
              if isNumberZero count then noPrices
              else
                match toNumber avg with
                | .error t => (.error t, p)
                | .ok x =>
                  match toStringJS count with
                  | .error t => (.error t, p)
                  | .ok n =>
                    showStatus
                      (.str ("Average price: " ++ toFixed2 x ++ " (across " ++ n ++ " medicines)"))
                      "success" p
    else (.error (.error ("HTTP error " ++ String.mk (natDigits status))), p)

/-- Embeds `handleAverageClick()`, given how its request ends. -/
def handleAverageClick (reply : FetchResult) (p : Page) : Except Thrown Unit × Page :=
  match averageTry reply p with
  | (.ok _, p) => (.ok (), p)
  | (.error t, p) =>
    showStatus (.str "Failed to fetch average price.") "error"
      (p.log (.consoleError "Average price error:" t))

/-! ## Observations on traces -/

/-- The number of `form.reset()` calls in a trace. -/
def resetCount (t : List Effect) : Nat :=
  t.countP (fun e => match e with | .formReset => true | _ => false)

/-- The number of `fetch` calls with the given method and URL in a trace. -/
def fetchCount (method url : String) (t : List Effect) : Nat :=
  t.countP (fun e => match e with | .fetch m u _ => m == method && u == url | _ => false)

/-- The `fetch` calls of a trace, in order. -/
def requests (t : List Effect) : List (String × String × Option (List (String × String))) :=
  t.filterMap (fun e => match e with | .fetch m u b => some (m, u, b) | _ => none)

/-- An effect that is neither a `fetch` nor a `form.reset()`. -/
def Effect.quiet : Effect → Bool
  | .fetch _ _ _ => false
  | .formReset => false
  | _ => true

/-! ## Auxiliary facts -/

/-- Showing a string with one of the three severities the script uses never
throws: it sets the status element, when there is one, and records the call. -/
theorem showStatus_str (s ty : String) (p : Page)
    (hty : ty.data.any isAsciiWhitespace = false) :
    showStatus (.str s) ty p =
      (.ok (), ⟨p.status.map (fun _ => ⟨s, "status-" ++ ty⟩), p.tbody,
        p.trace ++ [.showStatus (.str s) ty]⟩) := by
  unfold showStatus Page.log
  cases h : p.status <;> simp [h, textContentOf, toStringJS, hty]

theorem showStatus_info (s : String) (p : Page) :
    showStatus (.str s) "info" p =
      (.ok (), ⟨p.status.map (fun _ => ⟨s, "status-info"⟩), p.tbody,
        p.trace ++ [.showStatus (.str s) "info"]⟩) :=
  showStatus_str s "info" p (by decide)

theorem showStatus_success (s : String) (p : Page) :
    showStatus (.str s) "success" p =
      (.ok (), ⟨p.status.map (fun _ => ⟨s, "status-success"⟩), p.tbody,
        p.trace ++ [.showStatus (.str s) "success"]⟩) :=
  showStatus_str s "success" p (by decide)

theorem showStatus_error (s : String) (p : Page) :
    showStatus (.str s) "error" p =
      (.ok (), ⟨p.status.map (fun _ => ⟨s, "status-error"⟩), p.tbody,
        p.trace ++ [.showStatus (.str s) "error"]⟩) :=
  showStatus_str s "error" p (by decide)

theorem isBlank_iff (o : Option String) : isBlank o = true ↔ ∀ s, o = some s → s = "" := by
  cases o with
  | none => simp [isBlank]
  | some s =>
    simp only [isBlank, Option.some.injEq, forall_eq', beq_iff_eq]
    constructor
    · intro h; exact String.ext h
    · intro h; rw [h]

theorem isBlank_map_trim_iff (o : Option String) :
    isBlank (o.map jsTrim) = true ↔ ∀ s, o = some s → jsTrim s = "" := by
  rw [isBlank_iff]
  cases o <;> simp

/-- The double nearest to the decimal literal `12.345` is
`6949617174986097 * 2^-49`, which lies just above 12.345. -/
theorem double_of_12_345 :
    decimalToDouble false 12345 (-3) = .fin false 6949617174986097 (-49) ∧
    12345 * 2 ^ 49 < 6949617174986097 * 1000 := by
  decide

/-- An object with an own `toString` property has no text and no number: both
conversions throw a TypeError, also from inside an array. -/
theorem own_toString_blocks_conversion :
    toStringJS (.obj [("toString", .null)]) = .error .typeError ∧
    toNumber (.obj [("toString", .null)]) = .error .typeError ∧
    toNumber (.arr [.obj [("toString", .null)]]) = .error .typeError ∧
    toStringJS (.obj [("valueOf", .null)]) = .ok "[object Object]" := by
  decide

/-- A `message` without a text cannot be shown: `handleCreate` then ends in its
failure branch although the response is `ok` and carries no `error`. -/
theorem message_without_text_fails :
    (handleCreate ⟨some "Aspirin", some "4.50"⟩
        (.response 200 (.json (.obj [("message", .obj [("toString", .null)])]))) .networkError
        ⟨some ⟨"", ""⟩, some [], []⟩).2.status =
      some ⟨"Failed to create medicine.", "status-error"⟩ := by
  decide

/-- A price without a number makes the rendering of its entry throw. -/
theorem price_without_number_throws :
    renderRow (.obj [("name", .str "Aspirin"), ("price", .obj [("toString", .null)])]) =
      .error .typeError := by
  decide

/-! ## Claims -/

/-- C4: in `handleCreate` and `handleUpdate`, when the name field is empty after
trimming or the price field is empty, and in `handleDelete` when the name field
is empty after trimming (a missing input counts as empty), the handler only
prevents the default submission and shows its guidance message with severity
error: the trace gains no `fetch`, no `formReset` and no reload, the table body
is untouched, and the status element (when the page has one) holds the message
with class `status-error`. -/
theorem C4_validation_blocks_request (form : Form) (reply reload : FetchResult) (p : Page) :
    (((∀ s, form.name = some s → jsTrim s = "") ∨ (∀ s, form.price = some s → s = "")) →
      handleCreate form reply reload p =
        (.ok (), ⟨p.status.map (fun _ => ⟨"Please provide both name and price.", "status-error"⟩),
          p.tbody,
          p.trace ++ [.preventDefault,
            .showStatus (.str "Please provide both name and price.") "error"]⟩) ∧
      handleUpdate form reply reload p =
        (.ok (), ⟨p.status.map (fun _ => ⟨"Please provide both name and new price.", "status-error"⟩),
          p.tbody,
          p.trace ++ [.preventDefault,
            .showStatus (.str "Please provide both name and new price.") "error"]⟩)) ∧
    ((∀ s, form.name = some s → jsTrim s = "") →
      handleDelete form reply reload p =
        (.ok (), ⟨p.status.map
            (fun _ => ⟨"Please provide the name of the medicine to delete.", "status-error"⟩),
          p.tbody,
          p.trace ++ [.preventDefault,
            .showStatus (.str "Please provide the name of the medicine to delete.") "error"]⟩)) := by
  refine ⟨fun h => ?_, fun h => ?_⟩
  · have hb : (isBlank (form.name.map jsTrim) || isBlank form.price) = true := by
      rw [Bool.or_eq_true, isBlank_map_trim_iff, isBlank_iff]; exact h
    constructor
    · simp [handleCreate, hb, showStatus_error, Page.log]
    · simp [handleUpdate, hb, showStatus_error, Page.log]
  · have hb : isBlank (form.name.map jsTrim) = true := (isBlank_map_trim_iff _).2 h
    simp [handleDelete, hb, showStatus_error, Page.log]

/-- C4, at a form whose name is only spaces: nothing but the guidance message. -/
theorem C4_validation_blocks_request_witness :
    handleCreate ⟨some "   ", some "4.50"⟩ .networkError .networkError ⟨some ⟨"", ""⟩, some [], []⟩ =
      (.ok (), ⟨some ⟨"Please provide both name and price.", "status-error"⟩, some [],
        [.preventDefault, .showStatus (.str "Please provide both name and price.") "error"]⟩) :=
  ((C4_validation_blocks_request ⟨some "   ", some "4.50"⟩ .networkError .networkError
      ⟨some ⟨"", ""⟩, some [], []⟩).1 (Or.inl (by decide))).1

/-- C8: when the request of `fetchAndRenderMedicines` is rejected, answered with
a status outside 200-299, or answered with a body that is not JSON, the call
returns normally, the status element (when present) ends as
"Failed to load medicines. Please try again." with class `status-error`, the
table body is what it was, and `renderMedicines` is not among the effects: the
trace gains exactly the loading status, the request, the console entry and
the failure status. -/
theorem C8_failed_load_keeps_table (reply : FetchResult) (p : Page)
    (h : reply = .networkError ∨ (∃ status body, reply = .response status body ∧
      (responseOk status = false ∨ body = .malformed))) :
    ∃ t, fetchAndRenderMedicines reply p =
      (.ok (), ⟨p.status.map
          (fun _ => ⟨"Failed to load medicines. Please try again.", "status-error"⟩),
        p.tbody,
        p.trace ++ [.showStatus (.str "Loading medicines...") "info",
          .fetch "GET" (API_BASE_URL ++ "/medicines") none,
          .consoleError "Failed to fetch medicines:" t,
          .showStatus (.str "Failed to load medicines. Please try again.") "error"]⟩) := by
  rcases h with h | ⟨status, body, h, hbad⟩
  · subst h
    exact ⟨.networkError, by
      cases hs : p.status <;>
        simp [fetchAndRenderMedicines, fetchAndRenderTry, showStatus_info, showStatus_error,
          Page.log, hs]⟩
  · subst h
    by_cases hok : responseOk status = true
    · rcases hbad with hbad | hbad
      · rw [hok] at hbad; cases hbad
      · subst hbad
        exact ⟨.syntaxError, by
          cases hs : p.status <;>
            simp [fetchAndRenderMedicines, fetchAndRenderTry, showStatus_info, showStatus_error,
              Page.log, hs, hok]⟩
    · exact ⟨.error ("HTTP error " ++ String.mk (natDigits status)), by
        cases hs : p.status <;>
          simp [fetchAndRenderMedicines, fetchAndRenderTry, showStatus_info, showStatus_error,
            Page.log, hs, hok]⟩

/-- C8, at a 503 answer on a page that shows one row. -/
theorem C8_failed_load_keeps_table_witness :
    ∃ t, fetchAndRenderMedicines (.response 503 .malformed)
        ⟨some ⟨"", ""⟩, some [[⟨"Aspirin", 1⟩, ⟨"4.50", 1⟩]], []⟩ =
      (.ok (), ⟨some ⟨"Failed to load medicines. Please try again.", "status-error"⟩,
        some [[⟨"Aspirin", 1⟩, ⟨"4.50", 1⟩]],
        [.showStatus (.str "Loading medicines...") "info",
          .fetch "GET" (API_BASE_URL ++ "/medicines") none,
          .consoleError "Failed to fetch medicines:" t,
          .showStatus (.str "Failed to load medicines. Please try again.") "error"]⟩) :=
  C8_failed_load_keeps_table (.response 503 .malformed)
    ⟨some ⟨"", ""⟩, some [[⟨"Aspirin", 1⟩, ⟨"4.50", 1⟩]], []⟩
    (Or.inr ⟨503, .malformed, rfl, Or.inl (by decide)⟩)

theorem showStatus_trace (m : JSValue) (ty : String) (p : Page) :
    (showStatus m ty p).2.trace = p.trace ++ [.showStatus m ty] := by
  unfold showStatus Page.log
  cases p.status with
  | none => rfl
  | some el =>
    simp only
    cases textContentOf m with
    | error t => rfl
    | ok text => by_cases h : ty.data.any isAsciiWhitespace = true <;> simp [h]

/-- Showing a value whose text conversion succeeds, with a severity free of
white space, sets the status element and returns normally. -/
theorem showStatus_ok (m : JSValue) (text ty : String) (p : Page)
    (hm : textContentOf m = .ok text) (hty : ty.data.any isAsciiWhitespace = false) :
    showStatus m ty p =
      (.ok (), ⟨p.status.map (fun _ => ⟨text, "status-" ++ ty⟩), p.tbody,
        p.trace ++ [.showStatus m ty]⟩) := by
  unfold showStatus Page.log
  cases h : p.status <;> simp [h, hm, hty]

theorem renderMedicines_trace (m : JSValue) (p : Page) :
    (renderMedicines m p).2.trace = p.trace ++ [.renderMedicines m] := by
  unfold renderMedicines Page.log
  cases p.tbody with
  | none => rfl
  | some rows =>
    simp only
    split <;> rfl

/-- The effects of `fetchAndRenderMedicines`: the loading status, one GET of
`/medicines`, then effects that are neither requests nor form resets. -/
theorem fetchAndRenderMedicines_trace (reply : FetchResult) (p : Page) :
    ∃ rest, (fetchAndRenderMedicines reply p).2.trace =
        p.trace ++ [.showStatus (.str "Loading medicines...") "info",
          .fetch "GET" (API_BASE_URL ++ "/medicines") none] ++ rest ∧
      ∀ e ∈ rest, e.quiet = true := by
  unfold fetchAndRenderMedicines
  rw [showStatus_info]
  simp only
  generalize hp1 : (⟨p.status.map (fun _ => ⟨"Loading medicines...", "status-info"⟩), p.tbody,
    p.trace ++ [.showStatus (.str "Loading medicines...") "info"]⟩ : Page) = p1
  have ht1 : p1.trace = p.trace ++ [.showStatus (.str "Loading medicines...") "info"] := by
    rw [← hp1]
  -- the `try` block
  have htry : ∃ rest, (fetchAndRenderTry reply p1).2.trace =
      p1.trace ++ [.fetch "GET" (API_BASE_URL ++ "/medicines") none] ++ rest ∧
      ∀ e ∈ rest, e.quiet = true := by
    unfold fetchAndRenderTry
    simp only [Page.log]
    cases reply with
    | networkError => exact ⟨[], by simp, by simp⟩
    | response status body =>
      simp only
      by_cases hok : responseOk status = true
      · simp only [hok, if_true]
        cases body with
        | malformed => exact ⟨[], by simp, by simp⟩
        | json data =>
          simp only
          cases getProp data "medicines" with
          | error t => exact ⟨[], by simp, by simp⟩
          | ok v =>
            simp only
            generalize hmeds : (if isArray v = true then v else JSValue.arr []) = meds
            generalize hp2 : (⟨p1.status, p1.tbody,
              p1.trace ++ [.fetch "GET" (API_BASE_URL ++ "/medicines") none]⟩ : Page) = p2
            have hr := renderMedicines_trace meds p2
            rcases hrm : renderMedicines meds p2 with ⟨r, p3⟩
            rw [hrm] at hr
            simp only at hr
            cases r with
            | error t =>
              refine ⟨[.renderMedicines meds], ?_, by simp [Effect.quiet]⟩
              simp only [hr, ← hp2]
            | ok u =>
              refine ⟨[.renderMedicines meds, .showStatus (.str ("Loaded " ++
                String.mk (natDigits (arrayLength meds)) ++ " medicines.")) "success"], ?_,
                by simp [Effect.quiet]⟩
              simp only [showStatus_trace, hr, ← hp2, List.append_assoc, List.cons_append,
                List.nil_append]
      · simp only [hok]
        exact ⟨[], by simp, by simp⟩
  rcases htry with ⟨rest, hrest, hq⟩
  rcases hres : fetchAndRenderTry reply p1 with ⟨r, p2⟩
  rw [hres] at hrest
  simp only at hrest
  cases r with
  | ok u =>
    refine ⟨rest, ?_, hq⟩
    simp only [hrest, ht1, List.append_assoc, List.cons_append, List.nil_append]
  | error t =>
    refine ⟨rest ++ [.consoleError "Failed to fetch medicines:" t,
      .showStatus (.str "Failed to load medicines. Please try again.") "error"], ?_, ?_⟩
    · simp only [showStatus_error, Page.log, hrest, ht1, List.append_assoc, List.cons_append,
        List.nil_append]
    · intro e he
      rcases List.mem_append.1 he with he | he
      · exact hq e he
      · simp only [List.mem_cons, List.mem_singleton, List.not_mem_nil, or_false] at he
        rcases he with he | he <;> subst he <;> rfl

theorem countP_quiet_reset (rest : List Effect) (h : ∀ e ∈ rest, e.quiet = true) :
    resetCount rest = 0 := by
  unfold resetCount
  rw [List.countP_eq_zero]
  intro e he
  have := h e he
  cases e <;> simp_all [Effect.quiet]

theorem countP_quiet_fetch (method url : String) (rest : List Effect)
    (h : ∀ e ∈ rest, e.quiet = true) : fetchCount method url rest = 0 := by
  unfold fetchCount
  rw [List.countP_eq_zero]
  intro e he
  have := h e he
  cases e <;> simp_all [Effect.quiet]

theorem resetCount_append (a b : List Effect) : resetCount (a ++ b) = resetCount a + resetCount b := by
  simp [resetCount, List.countP_append]

theorem fetchCount_append (method url : String) (a b : List Effect) :
    fetchCount method url (a ++ b) = fetchCount method url a + fetchCount method url b := by
  simp [fetchCount, List.countP_append]

/-- A response that is not `ok`, cannot be decoded, or carries a truthy `error`
makes the `try` block of a form handler throw before anything is shown. -/
theorem afterSubmit_fails (failed success : String) (status : Nat) (body : Body)
    (reload : FetchResult) (p : Page)
    (h : responseOk status = false ∨
      (∃ data err, body = .json data ∧ getProp data "error" = .ok err ∧ truthy err = true)) :
    ∃ t, afterSubmit failed success (.response status body) reload p = (.error t, p) := by
  have hraise : ∀ data, ∃ t,
      (match getProp data "error" with
        | .error t => ((.error t, p) : Except Thrown Unit × Page)
        | .ok err =>
          match toStringJS (if truthy err = true then err else .str failed) with
          | .error t => (.error t, p)
          | .ok text => (.error (.error text), p)) = (.error t, p) := by
    intro data
    cases getProp data "error" with
    | error t => exact ⟨t, rfl⟩
    | ok err =>
      simp only
      cases toStringJS (if truthy err = true then err else .str failed) with
      | error t => exact ⟨t, rfl⟩
      | ok text => exact ⟨.error text, rfl⟩
  cases body with
  | malformed => exact ⟨.syntaxError, rfl⟩
  | json data =>
    unfold afterSubmit
    simp only
    by_cases hok : responseOk status = true
    · rcases h with h | ⟨data', err, hb, he, ht⟩
      · rw [hok] at h; cases h
      · injection hb with hb
        subst hb
        simp only [hok, if_true, he, ht]
        have := hraise data
        simpa only [he, ht] using this
    · simp only [hok]
      exact hraise data

/-- C5: for a submission that passed validation, when the answer has a status
outside 200-299 (whatever its body) or a decoded body whose `error` is truthy,
each of `handleCreate`, `handleUpdate` and `handleDelete` returns normally with
the status element (when present) set to its own generic failure message and
class `status-error`.  The message is a constant of the handler, so the text
of the server never reaches it; the error goes to the console only.  The
trace gains the prevented default, the one request, the console entry and the
failure status: no `form.reset()`, no GET of `/medicines`. -/
theorem C5_failure_generic_message (form : Form) (n : String) (status : Nat) (body : Body)
    (reload : FetchResult) (p : Page)
    (hname : form.name = some n) (hn : jsTrim n ≠ "")
    (h : responseOk status = false ∨
      (∃ data err, body = .json data ∧ getProp data "error" = .ok err ∧ truthy err = true)) :
    (∀ pr, form.price = some pr → pr ≠ "" →
      (∃ t, handleCreate form (.response status body) reload p =
        (.ok (), ⟨p.status.map (fun _ => ⟨"Failed to create medicine.", "status-error"⟩), p.tbody,
          p.trace ++ [.preventDefault,
            .fetch "POST" (API_BASE_URL ++ "/create") (some [("name", jsTrim n), ("price", pr)]),
            .consoleError "Create error:" t,
            .showStatus (.str "Failed to create medicine.") "error"]⟩)) ∧
      (∃ t, handleUpdate form (.response status body) reload p =
        (.ok (), ⟨p.status.map (fun _ => ⟨"Failed to update medicine.", "status-error"⟩), p.tbody,
          p.trace ++ [.preventDefault,
            .fetch "POST" (API_BASE_URL ++ "/update") (some [("name", jsTrim n), ("price", pr)]),
            .consoleError "Update error:" t,
            .showStatus (.str "Failed to update medicine.") "error"]⟩))) ∧
    (∃ t, handleDelete form (.response status body) reload p =
      (.ok (), ⟨p.status.map (fun _ => ⟨"Failed to delete medicine.", "status-error"⟩), p.tbody,
        p.trace ++ [.preventDefault,
          .fetch "DELETE" (API_BASE_URL ++ "/delete") (some [("name", jsTrim n)]),
          .consoleError "Delete error:" t,
          .showStatus (.str "Failed to delete medicine.") "error"]⟩)) := by
  have hnb : isBlank (some (jsTrim n)) = false := by
    cases hb : isBlank (some (jsTrim n)) with
    | false => rfl
    | true => exact absurd ((isBlank_iff _).1 hb _ rfl) hn
  refine ⟨fun pr hprice hpr => ?_, ?_⟩
  · have hpb : isBlank (some pr) = false := by
      cases hb : isBlank (some pr) with
      | false => rfl
      | true => exact absurd ((isBlank_iff _).1 hb _ rfl) hpr
    constructor
    · obtain ⟨t, ht⟩ := afterSubmit_fails "Create failed" "Medicine created successfully." status
        body reload ⟨p.status, p.tbody, p.trace ++ [.preventDefault,
          .fetch "POST" (API_BASE_URL ++ "/create") (some [("name", jsTrim n), ("price", pr)])]⟩ h
      refine ⟨t, ?_⟩
      simp [handleCreate, hname, hprice, hnb, hpb, Page.log, ht, showStatus_error]
    · obtain ⟨t, ht⟩ := afterSubmit_fails "Update failed" "Medicine updated successfully." status
        body reload ⟨p.status, p.tbody, p.trace ++ [.preventDefault,
          .fetch "POST" (API_BASE_URL ++ "/update") (some [("name", jsTrim n), ("price", pr)])]⟩ h
      refine ⟨t, ?_⟩
      simp [handleUpdate, hname, hprice, hnb, hpb, Page.log, ht, showStatus_error]
  · obtain ⟨t, ht⟩ := afterSubmit_fails "Delete failed" "Medicine deleted successfully." status
      body reload ⟨p.status, p.tbody, p.trace ++ [.preventDefault,
        .fetch "DELETE" (API_BASE_URL ++ "/delete") (some [("name", jsTrim n)])]⟩ h
    refine ⟨t, ?_⟩
    simp [handleDelete, hname, hnb, Page.log, ht, showStatus_error]

/-- C5, at the case named by the claim: a 500 answer to `/create` whose body has
`error: "duplicate name"`; the text `duplicate name` is no part of the status
shown. -/
theorem C5_failure_generic_message_witness :
    (∃ t, handleCreate ⟨some "Aspirin", some "4.50"⟩
        (.response 500 (.json (.obj [("error", .str "duplicate name")]))) .networkError
        ⟨some ⟨"", ""⟩, some [], []⟩ =
      (.ok (), ⟨some ⟨"Failed to create medicine.", "status-error"⟩, some [],
        [.preventDefault,
          .fetch "POST" (API_BASE_URL ++ "/create") (some [("name", "Aspirin"), ("price", "4.50")]),
          .consoleError "Create error:" t,
          .showStatus (.str "Failed to create medicine.") "error"]⟩)) ∧
    ¬ ("duplicate name".data <:+: "Failed to create medicine.".data) :=
  ⟨((C5_failure_generic_message ⟨some "Aspirin", some "4.50"⟩ "Aspirin" 500
      (.json (.obj [("error", .str "duplicate name")])) .networkError
      ⟨some ⟨"", ""⟩, some [], []⟩ rfl (by decide) (Or.inl (by decide))).1
        "4.50" rfl (by decide)).1, by decide⟩

/-- A reload adds no form reset and exactly one GET of `/medicines`. -/
theorem reload_counts (reload : FetchResult) (p : Page) :
    resetCount (fetchAndRenderMedicines reload p).2.trace = resetCount p.trace ∧
    fetchCount "GET" (API_BASE_URL ++ "/medicines") (fetchAndRenderMedicines reload p).2.trace =
      fetchCount "GET" (API_BASE_URL ++ "/medicines") p.trace + 1 := by
  obtain ⟨rest, hrest, hq⟩ := fetchAndRenderMedicines_trace reload p
  rw [hrest]
  constructor
  · rw [resetCount_append, resetCount_append, countP_quiet_reset rest hq]
    simp [resetCount]
  · rw [fetchCount_append, fetchCount_append, countP_quiet_fetch _ _ rest hq]
    simp [fetchCount]

/-- An `ok` response whose decoded body has a falsy `error` and a `message`
that converts to text: the message (or the fallback) is shown with severity
success, the form is reset, and the list is reloaded. -/
theorem afterSubmit_succeeds (failed success : String) (status : Nat) (data err msg : JSValue)
    (s : String) (reload : FetchResult) (p : Page)
    (hok : responseOk status = true)
    (herr : getProp data "error" = .ok err) (hfalsy : truthy err = false)
    (hmsg : getProp data "message" = .ok msg) (hs : toStringJS msg = .ok s) :
    afterSubmit failed success (.response status (.json data)) reload p =
      (.ok (), (fetchAndRenderMedicines reload
        ⟨p.status.map (fun _ => ⟨if truthy msg = true then s else success, "status-success"⟩),
          p.tbody,
          p.trace ++ [.showStatus (if truthy msg = true then msg else .str success) "success",
            .formReset]⟩).2) := by
  have htext : textContentOf (if truthy msg = true then msg else .str success) =
      .ok (if truthy msg = true then s else success) := by
    by_cases ht : truthy msg = true
    · simp only [ht, if_true]
      cases msg <;> simp_all [textContentOf, truthy]
    · simp [ht, textContentOf, toStringJS]
  unfold afterSubmit
  simp only [hok, if_true, herr, hfalsy, hmsg, Bool.false_eq_true, if_false]
  rw [showStatus_ok _ _ "success" p htext (by decide)]
  simp [Page.log]

/-- C6, as amended: for a submission that passed validation and an `ok`
response whose decoded body can be read (it is not `null`), has a falsy
`error`, and has a `message` that converts to text `s` (every string, number
and boolean does): each handler shows the message, or its literal fallback
when the message is falsy (absent, empty), with severity success, then
resets the form, then runs `fetchAndRenderMedicines`; over the whole run the
trace gains exactly one `form.reset()` and exactly one GET of `/medicines`. -/
theorem C6_success_resets_and_reloads (form : Form) (n : String) (status : Nat)
    (data err msg : JSValue) (s : String) (reload : FetchResult) (p : Page)
    (hname : form.name = some n) (hn : jsTrim n ≠ "")
    (hok : responseOk status = true)
    (herr : getProp data "error" = .ok err) (hfalsy : truthy err = false)
    (hmsg : getProp data "message" = .ok msg) (hs : toStringJS msg = .ok s) :
    (∀ pr, form.price = some pr → pr ≠ "" →
      (∃ q, handleCreate form (.response status (.json data)) reload p = (.ok (), q) ∧
        q = (fetchAndRenderMedicines reload
          ⟨p.status.map (fun _ =>
              ⟨if truthy msg = true then s else "Medicine created successfully.", "status-success"⟩),
            p.tbody,
            p.trace ++ [.preventDefault,
              .fetch "POST" (API_BASE_URL ++ "/create") (some [("name", jsTrim n), ("price", pr)]),
              .showStatus (if truthy msg = true then msg else .str "Medicine created successfully.")
                "success",
              .formReset]⟩).2 ∧
        resetCount q.trace = resetCount p.trace + 1 ∧
        fetchCount "GET" (API_BASE_URL ++ "/medicines") q.trace =
          fetchCount "GET" (API_BASE_URL ++ "/medicines") p.trace + 1) ∧
      (∃ q, handleUpdate form (.response status (.json data)) reload p = (.ok (), q) ∧
        q = (fetchAndRenderMedicines reload
          ⟨p.status.map (fun _ =>
              ⟨if truthy msg = true then s else "Medicine updated successfully.", "status-success"⟩),
            p.tbody,
            p.trace ++ [.preventDefault,
              .fetch "POST" (API_BASE_URL ++ "/update") (some [("name", jsTrim n), ("price", pr)]),
              .showStatus (if truthy msg = true then msg else .str "Medicine updated successfully.")
                "success",
              .formReset]⟩).2 ∧
        resetCount q.trace = resetCount p.trace + 1 ∧
        fetchCount "GET" (API_BASE_URL ++ "/medicines") q.trace =
          fetchCount "GET" (API_BASE_URL ++ "/medicines") p.trace + 1)) ∧
    (∃ q, handleDelete form (.response status (.json data)) reload p = (.ok (), q) ∧
      q = (fetchAndRenderMedicines reload
        ⟨p.status.map (fun _ =>
            ⟨if truthy msg = true then s else "Medicine deleted successfully.", "status-success"⟩),
          p.tbody,
          p.trace ++ [.preventDefault,
            .fetch "DELETE" (API_BASE_URL ++ "/delete") (some [("name", jsTrim n)]),
            .showStatus (if truthy msg = true then msg else .str "Medicine deleted successfully.")
              "success",
            .formReset]⟩).2 ∧
      resetCount q.trace = resetCount p.trace + 1 ∧
      fetchCount "GET" (API_BASE_URL ++ "/medicines") q.trace =
        fetchCount "GET" (API_BASE_URL ++ "/medicines") p.trace + 1) := by
  have hnb : isBlank (some (jsTrim n)) = false := by
    cases hb : isBlank (some (jsTrim n)) with
    | false => rfl
    | true => exact absurd ((isBlank_iff _).1 hb _ rfl) hn
  refine ⟨fun pr hprice hpr => ?_, ?_⟩
  · have hpb : isBlank (some pr) = false := by
      cases hb : isBlank (some pr) with
      | false => rfl
      | true => exact absurd ((isBlank_iff _).1 hb _ rfl) hpr
    constructor
    · refine ⟨_, ?_, rfl, ?_, ?_⟩
      · simp [handleCreate, hname, hprice, hnb, hpb, Page.log,
          afterSubmit_succeeds _ _ status data err msg s reload _ hok herr hfalsy hmsg hs]
      · rw [(reload_counts _ _).1]
        simp [resetCount, List.countP_append, List.countP_cons]
      · rw [(reload_counts _ _).2]
        simp [fetchCount, List.countP_append, List.countP_cons]
    · refine ⟨_, ?_, rfl, ?_, ?_⟩
      · simp [handleUpdate, hname, hprice, hnb, hpb, Page.log,
          afterSubmit_succeeds _ _ status data err msg s reload _ hok herr hfalsy hmsg hs]
      · rw [(reload_counts _ _).1]
        simp [resetCount, List.countP_append, List.countP_cons]
      · rw [(reload_counts _ _).2]
        simp [fetchCount, List.countP_append, List.countP_cons]
  · refine ⟨_, ?_, rfl, ?_, ?_⟩
    · simp [handleDelete, hname, hnb, Page.log,
        afterSubmit_succeeds _ _ status data err msg s reload _ hok herr hfalsy hmsg hs]
    · rw [(reload_counts _ _).1]
      simp [resetCount, List.countP_append, List.countP_cons]
    · rw [(reload_counts _ _).2]
      simp [fetchCount, List.countP_append, List.countP_cons]

/-- C6 as amended, at a 200 answer with body `message: "Medicine created"`
followed by a reload that finds no medicines. -/
theorem C6_success_resets_and_reloads_witness :
    ∃ q, handleCreate ⟨some " Aspirin ", some "4.50"⟩
        (.response 200 (.json (.obj [("message", .str "Medicine created")])))
        (.response 200 (.json (.obj [("medicines", .arr [])])))
        ⟨some ⟨"", ""⟩, some [], []⟩ = (.ok (), q) ∧
      resetCount q.trace = 1 ∧
      fetchCount "GET" (API_BASE_URL ++ "/medicines") q.trace = 1 := by
  obtain ⟨q, h1, _, h3, h4⟩ :=
    ((C6_success_resets_and_reloads ⟨some " Aspirin ", some "4.50"⟩ " Aspirin " 200
      (.obj [("message", .str "Medicine created")]) .undefined (.str "Medicine created")
      "Medicine created" (.response 200 (.json (.obj [("medicines", .arr [])])))
      ⟨some ⟨"", ""⟩, some [], []⟩ rfl (by decide) (by decide) rfl rfl rfl rfl).1
        "4.50" rfl (by decide)).1
  exact ⟨q, h1, h3, h4⟩

/-- C6 fails as stated: a 200 answer whose decoded body is `null` has no
`error` field at all, yet reading `data.error` throws, so `handleCreate` ends
with the failure status, resets nothing and issues no GET of `/medicines`. -/
theorem C6_counterexample_null_body :
    (handleCreate ⟨some "Aspirin", some "4.50"⟩ (.response 200 (.json .null))
        (.response 200 (.json (.obj [("medicines", .arr [])])))
        ⟨some ⟨"", ""⟩, some [], []⟩).2.status =
      some ⟨"Failed to create medicine.", "status-error"⟩ ∧
    resetCount (handleCreate ⟨some "Aspirin", some "4.50"⟩ (.response 200 (.json .null))
        (.response 200 (.json (.obj [("medicines", .arr [])])))
        ⟨some ⟨"", ""⟩, some [], []⟩).2.trace = 0 ∧
    fetchCount "GET" (API_BASE_URL ++ "/medicines")
      (handleCreate ⟨some "Aspirin", some "4.50"⟩ (.response 200 (.json .null))
        (.response 200 (.json (.obj [("medicines", .arr [])])))
        ⟨some ⟨"", ""⟩, some [], []⟩).2.trace = 0 := by
  decide

/-- Whatever the answer, the `try` block of a form handler only adds effects. -/
theorem afterSubmit_trace (failed success : String) (reply reload : FetchResult) (p : Page) :
    ∃ rest, (afterSubmit failed success reply reload p).2.trace = p.trace ++ rest := by
  have hraise : ∀ data, ∃ rest,
      (match getProp data "error" with
        | .error t => ((.error t, p) : Except Thrown Unit × Page)
        | .ok err =>
          match toStringJS (if truthy err = true then err else .str failed) with
          | .error t => (.error t, p)
          | .ok text => (.error (.error text), p)).2.trace = p.trace ++ rest := by
    intro data
    refine ⟨[], ?_⟩
    cases getProp data "error" with
    | error t => simp
    | ok err =>
      simp only
      cases toStringJS (if truthy err = true then err else .str failed) <;> simp
  cases reply with
  | networkError => exact ⟨[], by simp [afterSubmit]⟩
  | response status body =>
    cases body with
    | malformed => exact ⟨[], by simp [afterSubmit]⟩
    | json data =>
      unfold afterSubmit
      simp only
      by_cases hok : responseOk status = true
      · simp only [hok, if_true]
        cases herr : getProp data "error" with
        | error t => exact ⟨[], by simp⟩
        | ok err =>
          simp only
          by_cases ht : truthy err = true
          · simp only [ht, if_true]
            have := hraise data
            simpa only [herr, ht, if_true] using this
          · simp only [ht]
            cases getProp data "message" with
            | error t => exact ⟨[], by simp⟩
            | ok msg =>
              simp only
              have hst := showStatus_trace (if truthy msg = true then msg else .str success)
                "success" p
              rcases hsh : showStatus (if truthy msg = true then msg else .str success)
                "success" p with ⟨r, p1⟩
              rw [hsh] at hst
              simp only at hst
              cases r with
              | error t => exact ⟨_, hst⟩
              | ok u =>
                simp only
                obtain ⟨rest, hrest, _⟩ := fetchAndRenderMedicines_trace reload (p1.log .formReset)
                refine ⟨[.showStatus (if truthy msg = true then msg else .str success) "success",
                  .formReset, .showStatus (.str "Loading medicines...") "info",
                  .fetch "GET" (API_BASE_URL ++ "/medicines") none] ++ rest, ?_⟩
                simp only [Bool.false_eq_true, if_false, hrest]
                simp only [Page.log, hst, List.append_assoc, List.cons_append, List.nil_append]
      · simp only [hok]
        exact hraise data

/-- C10, as amended: `handleCreate` and `handleUpdate` trim the name only; the
price is read as typed.  With both inputs present, a submission whose trimmed
name or whose price is the empty string is refused with the guidance message
and no request; every other submission, a price made only of white space
included, is accepted, and its request is issued right after the default is
prevented, with the trimmed name and the price exactly as typed. -/
theorem C10_price_read_untrimmed (form : Form) (n pr : String) (reply reload : FetchResult)
    (p : Page) (hname : form.name = some n) (hprice : form.price = some pr) :
    ((jsTrim n = "" ∨ pr = "") →
      (handleCreate form reply reload p).2.trace =
        p.trace ++ [.preventDefault,
          .showStatus (.str "Please provide both name and price.") "error"] ∧
      (handleUpdate form reply reload p).2.trace =
        p.trace ++ [.preventDefault,
          .showStatus (.str "Please provide both name and new price.") "error"]) ∧
    ((jsTrim n ≠ "" ∧ pr ≠ "") →
      (∃ rest, (handleCreate form reply reload p).2.trace =
        p.trace ++ [.preventDefault,
          .fetch "POST" (API_BASE_URL ++ "/create") (some [("name", jsTrim n), ("price", pr)])]
          ++ rest) ∧
      (∃ rest, (handleUpdate form reply reload p).2.trace =
        p.trace ++ [.preventDefault,
          .fetch "POST" (API_BASE_URL ++ "/update") (some [("name", jsTrim n), ("price", pr)])]
          ++ rest)) := by
  constructor
  · intro h
    have hb : (isBlank (form.name.map jsTrim) || isBlank form.price) = true := by
      rw [Bool.or_eq_true, isBlank_map_trim_iff, isBlank_iff, hname, hprice]
      rcases h with h | h
      · left; intro s hs; cases hs; exact h
      · right; intro s hs; cases hs; exact h
    constructor
    · simp [handleCreate, hb, showStatus_error, Page.log]
    · simp [handleUpdate, hb, showStatus_error, Page.log]
  · rintro ⟨hn, hpr⟩
    have hnb : isBlank (some (jsTrim n)) = false := by
      cases hb : isBlank (some (jsTrim n)) with
      | false => rfl
      | true => exact absurd ((isBlank_iff _).1 hb _ rfl) hn
    have hpb : isBlank (some pr) = false := by
      cases hb : isBlank (some pr) with
      | false => rfl
      | true => exact absurd ((isBlank_iff _).1 hb _ rfl) hpr
    constructor
    · obtain ⟨rest, hrest⟩ := afterSubmit_trace "Create failed" "Medicine created successfully."
        reply reload ⟨p.status, p.tbody, p.trace ++ [.preventDefault,
          .fetch "POST" (API_BASE_URL ++ "/create") (some [("name", jsTrim n), ("price", pr)])]⟩
      rcases hres : afterSubmit "Create failed" "Medicine created successfully."
        reply reload ⟨p.status, p.tbody, p.trace ++ [.preventDefault,
          .fetch "POST" (API_BASE_URL ++ "/create") (some [("name", jsTrim n), ("price", pr)])]⟩
        with ⟨r, q⟩
      rw [hres] at hrest
      simp only at hrest
      cases r with
      | ok u =>
        exact ⟨rest, by simp [handleCreate, hname, hprice, hnb, hpb, Page.log, hres, hrest]⟩
      | error t =>
        exact ⟨rest ++ [.consoleError "Create error:" t,
          .showStatus (.str "Failed to create medicine.") "error"], by
          simp [handleCreate, hname, hprice, hnb, hpb, Page.log, hres, hrest, showStatus_error]⟩
    · obtain ⟨rest, hrest⟩ := afterSubmit_trace "Update failed" "Medicine updated successfully."
        reply reload ⟨p.status, p.tbody, p.trace ++ [.preventDefault,
          .fetch "POST" (API_BASE_URL ++ "/update") (some [("name", jsTrim n), ("price", pr)])]⟩
      rcases hres : afterSubmit "Update failed" "Medicine updated successfully."
        reply reload ⟨p.status, p.tbody, p.trace ++ [.preventDefault,
          .fetch "POST" (API_BASE_URL ++ "/update") (some [("name", jsTrim n), ("price", pr)])]⟩
        with ⟨r, q⟩
      rw [hres] at hrest
      simp only at hrest
      cases r with
      | ok u =>
        exact ⟨rest, by simp [handleUpdate, hname, hprice, hnb, hpb, Page.log, hres, hrest]⟩
      | error t =>
        exact ⟨rest ++ [.consoleError "Update error:" t,
          .showStatus (.str "Failed to update medicine.") "error"], by
          simp [handleUpdate, hname, hprice, hnb, hpb, Page.log, hres, hrest, showStatus_error]⟩

/-- C10 as amended, at a price of three spaces: the request goes out with the
price `"   "`. -/
theorem C10_price_read_untrimmed_witness :
    ∃ rest, (handleCreate ⟨some " Aspirin ", some "   "⟩ .networkError .networkError
        ⟨some ⟨"", ""⟩, some [], []⟩).2.trace =
      [.preventDefault,
        .fetch "POST" (API_BASE_URL ++ "/create") (some [("name", "Aspirin"), ("price", "   ")])]
        ++ rest :=
  ((C10_price_read_untrimmed ⟨some " Aspirin ", some "   "⟩ " Aspirin " "   " .networkError
    .networkError ⟨some ⟨"", ""⟩, some [], []⟩ rfl rfl).2 ⟨by decide, by decide⟩).1

/-- C10 fails as stated: with a name and a price of three spaces, validation
passes in both handlers; each issues its POST, and the body carries the price
`"   "` with its white space. -/
theorem C10_counterexample_blank_price :
    requests (handleCreate ⟨some "Aspirin", some "   "⟩ (.response 200 (.json (.obj [])))
        .networkError ⟨some ⟨"", ""⟩, some [], []⟩).2.trace =
      [("POST", "http://localhost:8000/create", some [("name", "Aspirin"), ("price", "   ")]),
        ("GET", "http://localhost:8000/medicines", none)] ∧
    requests (handleUpdate ⟨some "Aspirin", some "   "⟩ (.response 200 (.json (.obj [])))
        .networkError ⟨some ⟨"", ""⟩, some [], []⟩).2.trace =
      [("POST", "http://localhost:8000/update", some [("name", "Aspirin"), ("price", "   ")]),
        ("GET", "http://localhost:8000/medicines", none)] :=
  ⟨by rfl, by rfl⟩

/-- C3, as amended: for an `ok` response whose decoded body lets `medicines`
be read (any decoded body but `null`) and whose `medicines` is missing or
not an array, `fetchAndRenderMedicines` returns normally and leaves the table
body (when the page has one) with exactly one row, holding a single cell that
spans 2 columns with the text "No medicines available."; the status ends as
"Loaded 0 medicines.". -/
theorem C3_missing_medicines_placeholder (status : Nat) (data v : JSValue) (p : Page)
    (hok : responseOk status = true)
    (hget : getProp data "medicines" = .ok v) (hv : isArray v = false) :
    fetchAndRenderMedicines (.response status (.json data)) p =
      (.ok (), ⟨p.status.map (fun _ => ⟨"Loaded 0 medicines.", "status-success"⟩),
        p.tbody.map (fun _ => [[⟨"No medicines available.", 2⟩]]),
        p.trace ++ [.showStatus (.str "Loading medicines...") "info",
          .fetch "GET" (API_BASE_URL ++ "/medicines") none,
          .renderMedicines (.arr []),
          .showStatus (.str "Loaded 0 medicines.") "success"]⟩) := by
  have hlen : "Loaded " ++ String.mk (natDigits (arrayLength (.arr []))) ++ " medicines." =
      "Loaded 0 medicines." := by decide
  unfold fetchAndRenderMedicines fetchAndRenderTry
  rw [showStatus_info]
  simp only [hok, if_true, hget, hv, Bool.false_eq_true, if_false, Page.log]
  cases htb : p.tbody <;> cases hs : p.status <;>
    simp [renderMedicines, Page.log, htb, hs, hlen, showStatus_success, placeholderRow]

/-- C3 as amended, at the empty object (no `medicines` field) on a page that
shows one row. -/
theorem C3_missing_medicines_placeholder_witness :
    fetchAndRenderMedicines (.response 200 (.json (.obj [])))
        ⟨some ⟨"", ""⟩, some [[⟨"Aspirin", 1⟩, ⟨"4.50", 1⟩]], []⟩ =
      (.ok (), ⟨some ⟨"Loaded 0 medicines.", "status-success"⟩,
        some [[⟨"No medicines available.", 2⟩]],
        [.showStatus (.str "Loading medicines...") "info",
          .fetch "GET" (API_BASE_URL ++ "/medicines") none,
          .renderMedicines (.arr []),
          .showStatus (.str "Loaded 0 medicines.") "success"]⟩) :=
  C3_missing_medicines_placeholder 200 (.obj []) .undefined
    ⟨some ⟨"", ""⟩, some [[⟨"Aspirin", 1⟩, ⟨"4.50", 1⟩]], []⟩ (by decide) rfl rfl

/-- C3 fails as stated: for the decoded body `null`, reading `data.medicines`
throws; the table body keeps the row it had instead of the placeholder row,
and the status ends as the loading failure. -/
theorem C3_counterexample_null_body :
    (fetchAndRenderMedicines (.response 200 (.json .null))
        ⟨some ⟨"", ""⟩, some [[⟨"Aspirin", 1⟩, ⟨"4.50", 1⟩]], []⟩).2.tbody =
      some [[⟨"Aspirin", 1⟩, ⟨"4.50", 1⟩]] ∧
    (fetchAndRenderMedicines (.response 200 (.json .null))
        ⟨some ⟨"", ""⟩, some [[⟨"Aspirin", 1⟩, ⟨"4.50", 1⟩]], []⟩).2.tbody ≠
      some [[⟨"No medicines available.", 2⟩]] ∧
    (fetchAndRenderMedicines (.response 200 (.json .null))
        ⟨some ⟨"", ""⟩, some [[⟨"Aspirin", 1⟩, ⟨"4.50", 1⟩]], []⟩).2.status =
      some ⟨"Failed to load medicines. Please try again.", "status-error"⟩ := by
  decide

/-- Reading a member of anything but `undefined` and `null` does not throw. -/
theorem getProp_ok (v : JSValue) (key : String) (h1 : v ≠ .undefined) (h2 : v ≠ .null) :
    ∃ w, getProp v key = .ok w := by
  cases v with
  | undefined => exact absurd rfl h1
  | null => exact absurd rfl h2
  | bool b => exact ⟨_, rfl⟩
  | num x => exact ⟨_, rfl⟩
  | str s => exact ⟨_, rfl⟩
  | arr items => exact ⟨_, rfl⟩
  | obj props => exact ⟨_, rfl⟩

/-- The name of an entry that can be read never throws. -/
theorem safeName_ok (med : JSValue) (h1 : med ≠ .undefined) (h2 : med ≠ .null) :
    ∃ name, safeName med = .ok name := by
  obtain ⟨w, hw⟩ := getProp_ok med "name" h1 h2
  unfold safeName
  rw [hw]
  cases w <;> exact ⟨_, rfl⟩

/-- The price text of an entry that can be read and whose price converts to a
number never throws. -/
theorem safePriceDisplay_ok (med : JSValue) (h1 : med ≠ .undefined) (h2 : med ≠ .null)
    (h3 : ∀ price, getProp med "price" = .ok price → ∃ x, toNumber price = .ok x) :
    ∃ text, safePriceDisplay med = .ok text := by
  obtain ⟨w, hw⟩ := getProp_ok med "price" h1 h2
  obtain ⟨x, hx⟩ := h3 w hw
  unfold safePriceDisplay
  rw [hw]
  cases w with
  | undefined => exact ⟨_, rfl⟩
  | null => exact ⟨_, rfl⟩
  | bool b => simp only [hx]; cases x <;> exact ⟨_, rfl⟩
  | num y => simp only [hx]; cases x <;> exact ⟨_, rfl⟩
  | str s => simp only [hx]; cases x <;> exact ⟨_, rfl⟩
  | arr items => simp only [hx]; cases x <;> exact ⟨_, rfl⟩
  | obj props => simp only [hx]; cases x <;> exact ⟨_, rfl⟩

/-- When every entry yields a row, the loop appends these rows in order. -/
theorem renderRows_ok (meds : List JSValue) (rows0 : List Row)
    (h : ∀ med ∈ meds, ∃ name price, safeName med = .ok name ∧ safePriceDisplay med = .ok price) :
    ∃ rows, renderRows meds rows0 = (.ok (), rows0 ++ rows) ∧
      List.Forall₂ (fun med row => ∃ name price, safeName med = .ok name ∧
        safePriceDisplay med = .ok price ∧ row = [⟨name, 1⟩, ⟨price, 1⟩]) meds rows := by
  induction meds generalizing rows0 with
  | nil => exact ⟨[], by simp [renderRows], List.Forall₂.nil⟩
  | cons med rest ih =>
    obtain ⟨name, price, hn, hp⟩ := h med (List.mem_cons_self _ _)
    obtain ⟨rows, hrows, hall⟩ := ih (rows0 ++ [[⟨name, 1⟩, ⟨price, 1⟩]])
      (fun m hm => h m (List.mem_cons_of_mem _ hm))
    refine ⟨[⟨name, 1⟩, ⟨price, 1⟩] :: rows, ?_, List.Forall₂.cons ⟨name, price, hn, hp, rfl⟩ hall⟩
    simp [renderRows, renderRow, hn, hp, hrows]

/-- C9, as amended: for every non-empty `medicines` array whose entries are
not `null` and whose prices `Number(...)` converts without throwing (entries
may be numbers, strings, booleans, arrays, or objects with missing or wrongly
typed fields; the conversion throws only for a price that is, or holds, an
object with an own `toString` property), `renderMedicines` returns normally
and leaves the table body (when the page has one) with one row per entry, in
order, each made of the name cell and the price cell with their fallbacks; and
`fetchAndRenderMedicines`, on an `ok` response with that array, ends with the
status "Loaded N medicines." (class `status-success`), N the array length. -/
theorem C9_malformed_entries_render (meds : List JSValue) (p : Page) (hne : meds ≠ [])
    (hentries : ∀ med ∈ meds, med ≠ .undefined ∧ med ≠ .null ∧
      ∀ price, getProp med "price" = .ok price → ∃ x, toNumber price = .ok x) :
    ∃ rows,
      List.Forall₂ (fun med row => ∃ name price, safeName med = .ok name ∧
        safePriceDisplay med = .ok price ∧ row = [⟨name, 1⟩, ⟨price, 1⟩]) meds rows ∧
      renderMedicines (.arr meds) p =
        (.ok (), ⟨p.status, p.tbody.map (fun _ => rows),
          p.trace ++ [.renderMedicines (.arr meds)]⟩) ∧
      ∀ status data, responseOk status = true → getProp data "medicines" = .ok (.arr meds) →
        fetchAndRenderMedicines (.response status (.json data)) p =
          (.ok (), ⟨p.status.map (fun _ =>
              ⟨"Loaded " ++ String.mk (natDigits meds.length) ++ " medicines.", "status-success"⟩),
            p.tbody.map (fun _ => rows),
            p.trace ++ [.showStatus (.str "Loading medicines...") "info",
              .fetch "GET" (API_BASE_URL ++ "/medicines") none,
              .renderMedicines (.arr meds),
              .showStatus
                (.str ("Loaded " ++ String.mk (natDigits meds.length) ++ " medicines.")) "success"]⟩) := by
  have hall : ∀ med ∈ meds, ∃ name price,
      safeName med = .ok name ∧ safePriceDisplay med = .ok price := by
    intro med hm
    obtain ⟨h1, h2, h3⟩ := hentries med hm
    obtain ⟨name, hn⟩ := safeName_ok med h1 h2
    obtain ⟨price, hp⟩ := safePriceDisplay_ok med h1 h2 h3
    exact ⟨name, price, hn, hp⟩
  obtain ⟨rows, hrows, hforall⟩ := renderRows_ok meds [] hall
  rw [List.nil_append] at hrows
  have hrender : ∀ q : Page, renderMedicines (.arr meds) q =
      (.ok (), ⟨q.status, q.tbody.map (fun _ => rows),
        q.trace ++ [.renderMedicines (.arr meds)]⟩) := by
    intro q
    cases meds with
    | nil => exact absurd rfl hne
    | cons med rest =>
      cases htb : q.tbody <;> simp [renderMedicines, Page.log, htb, hrows]
  refine ⟨rows, hforall, hrender p, ?_⟩
  intro status data hok hget
  unfold fetchAndRenderMedicines fetchAndRenderTry
  rw [showStatus_info]
  simp only [hok, if_true, hget, isArray, Page.log, hrender, showStatus_success, arrayLength]
  cases hs : p.status <;> simp

/-- C9 as amended, at an array of an object without a price and a bare number:
two rows, both with fallbacks. -/
theorem C9_malformed_entries_render_witness :
    ∃ rows,
      List.Forall₂ (fun med row => ∃ name price, safeName med = .ok name ∧
        safePriceDisplay med = .ok price ∧ row = [⟨name, 1⟩, ⟨price, 1⟩])
        [JSValue.obj [("name", .str "Aspirin")], JSValue.num (.fin false 7 0)] rows ∧
      renderMedicines (.arr [JSValue.obj [("name", .str "Aspirin")], JSValue.num (.fin false 7 0)])
          ⟨some ⟨"", ""⟩, some [], []⟩ =
        (.ok (), ⟨some ⟨"", ""⟩, some rows,
          [.renderMedicines
            (.arr [JSValue.obj [("name", .str "Aspirin")], JSValue.num (.fin false 7 0)])]⟩) := by
  obtain ⟨rows, h1, h2, _⟩ := C9_malformed_entries_render
    [JSValue.obj [("name", .str "Aspirin")], JSValue.num (.fin false 7 0)]
    ⟨some ⟨"", ""⟩, some [], []⟩ (by simp)
    (by
      intro med hm
      simp only [List.mem_cons, List.mem_singleton, List.not_mem_nil, or_false] at hm
      rcases hm with rfl | rfl
      · refine ⟨(by intro h; cases h), (by intro h; cases h), ?_⟩
        intro price hp
        have hprice : getProp (JSValue.obj [("name", .str "Aspirin")]) "price" = .ok .undefined := rfl
        rw [hprice] at hp
        cases hp
        exact ⟨_, rfl⟩
      · refine ⟨(by intro h; cases h), (by intro h; cases h), ?_⟩
        intro price hp
        cases hp
        exact ⟨_, rfl⟩)
  exact ⟨rows, h1, h2⟩

/-- C9 fails as stated: in the array of one well-formed entry followed by
`null`, reading `med.name` of `null` throws inside the loop; `renderMedicines`
raises a TypeError with one row in the table for two entries, and
`fetchAndRenderMedicines` ends with the loading failure, not "Loaded 2
medicines.". -/
theorem C9_counterexample_null_entry :
    (renderMedicines
        (.arr [.obj [("name", .str "Aspirin"), ("price", .num (.fin false 9 (-1)))], .null])
        ⟨some ⟨"", ""⟩, some [], []⟩).1 = .error .typeError ∧
    (renderMedicines
        (.arr [.obj [("name", .str "Aspirin"), ("price", .num (.fin false 9 (-1)))], .null])
        ⟨some ⟨"", ""⟩, some [], []⟩).2.tbody = some [[⟨"Aspirin", 1⟩, ⟨"4.50", 1⟩]] ∧
    (fetchAndRenderMedicines
        (.response 200 (.json (.obj [("medicines",
          .arr [.obj [("name", .str "Aspirin"), ("price", .num (.fin false 9 (-1)))], .null])])))
        ⟨some ⟨"", ""⟩, some [], []⟩).2.status =
      some ⟨"Failed to load medicines. Please try again.", "status-error"⟩ := by
  decide

/-- C7, as amended: for an `ok` response whose decoded body lets
`average_price` be read (any decoded body but `null`): when `average_price`
is `null` or absent, or `count` is the number zero, `handleAverageClick` shows
"No valid prices available to calculate an average." with class
`status-info`; otherwise, when `Number(average_price)` gives `x` and `count`
converts to the text `n` without throwing, it shows
"Average price: " ++ x.toFixed(2) ++ " (across " ++ n ++ " medicines)" with
class `status-success`. -/
theorem C7_average_status (status : Nat) (data avg : JSValue) (p : Page)
    (hok : responseOk status = true)
    (havg : getProp data "average_price" = .ok avg) :
    (isNullish avg = true →
      handleAverageClick (.response status (.json data)) p =
        (.ok (), ⟨p.status.map (fun _ =>
            ⟨"No valid prices available to calculate an average.", "status-info"⟩),
          p.tbody,
          p.trace ++ [.fetch "GET" (API_BASE_URL ++ "/medicines/average-price") none,
            .showStatus (.str "No valid prices available to calculate an average.") "info"]⟩)) ∧
    (∀ count, getProp data "count" = .ok count →
      (isNumberZero count = true →
        handleAverageClick (.response status (.json data)) p =
          (.ok (), ⟨p.status.map (fun _ =>
              ⟨"No valid prices available to calculate an average.", "status-info"⟩),
            p.tbody,
            p.trace ++ [.fetch "GET" (API_BASE_URL ++ "/medicines/average-price") none,
              .showStatus (.str "No valid prices available to calculate an average.") "info"]⟩)) ∧
      (isNullish avg = false → isNumberZero count = false →
        ∀ x n, toNumber avg = .ok x → toStringJS count = .ok n →
          handleAverageClick (.response status (.json data)) p =
            (.ok (), ⟨p.status.map (fun _ =>
                ⟨"Average price: " ++ toFixed2 x ++ " (across " ++ n ++ " medicines)",
                  "status-success"⟩),
              p.tbody,
              p.trace ++ [.fetch "GET" (API_BASE_URL ++ "/medicines/average-price") none,
                .showStatus
                  (.str ("Average price: " ++ toFixed2 x ++ " (across " ++ n ++ " medicines)"))
                  "success"]⟩))) := by
  refine ⟨fun hnull => ?_, fun count hcount => ⟨fun hzero => ?_, fun hnn hnz x n hx hn => ?_⟩⟩
  · simp [handleAverageClick, averageTry, hok, havg, hnull, showStatus_info, Page.log]
  · by_cases hnull : isNullish avg = true
    · simp [handleAverageClick, averageTry, hok, havg, hnull, showStatus_info, Page.log]
    · simp [handleAverageClick, averageTry, hok, havg, hnull, hcount, hzero, showStatus_info,
        Page.log]
  · simp [handleAverageClick, averageTry, hok, havg, hnn, hcount, hnz, hx, hn,
      showStatus_success, Page.log]

/-- C7 as amended, at the two cases named by the claim: the body
`average_price: 12.345, count: 3` (12.345 being the double nearest to that
literal) yields "Average price: 12.35 (across 3 medicines)" with severity
success, and the body `average_price: null, count: 0` yields the
informational message. -/
theorem C7_average_status_witness :
    handleAverageClick
        (.response 200 (.json (.obj [("average_price", .num (decimalToDouble false 12345 (-3))),
          ("count", .num (.fin false 3 0))])))
        ⟨some ⟨"", ""⟩, some [], []⟩ =
      (.ok (), ⟨some ⟨"Average price: 12.35 (across 3 medicines)", "status-success"⟩, some [],
        [.fetch "GET" (API_BASE_URL ++ "/medicines/average-price") none,
          .showStatus (.str "Average price: 12.35 (across 3 medicines)") "success"]⟩) ∧
    handleAverageClick
        (.response 200 (.json (.obj [("average_price", .null), ("count", .num (.fin false 0 0))])))
        ⟨some ⟨"", ""⟩, some [], []⟩ =
      (.ok (), ⟨some ⟨"No valid prices available to calculate an average.", "status-info"⟩,
        some [],
        [.fetch "GET" (API_BASE_URL ++ "/medicines/average-price") none,
          .showStatus (.str "No valid prices available to calculate an average.") "info"]⟩) := by
  have htext : "Average price: " ++ toFixed2 (decimalToDouble false 12345 (-3)) ++ " (across " ++
      "3" ++ " medicines)" = "Average price: 12.35 (across 3 medicines)" := by decide
  constructor
  · have h := ((C7_average_status 200
      (.obj [("average_price", .num (decimalToDouble false 12345 (-3))),
        ("count", .num (.fin false 3 0))])
      (.num (decimalToDouble false 12345 (-3))) ⟨some ⟨"", ""⟩, some [], []⟩ (by decide) rfl).2
      (.num (.fin false 3 0)) rfl).2 rfl rfl (decimalToDouble false 12345 (-3)) "3" rfl (by decide)
    rw [htext] at h
    exact h
  · exact (C7_average_status 200
      (.obj [("average_price", .null), ("count", .num (.fin false 0 0))]) .null
      ⟨some ⟨"", ""⟩, some [], []⟩ (by decide) rfl).1 rfl

/-- C7 fails as stated: for the decoded body `null` (which has no
`average_price`), reading `data.average_price` throws and the status ends as
"Failed to fetch average price." with class `status-error`, not as the
informational message. -/
theorem C7_counterexample_null_body :
    (handleAverageClick (.response 200 (.json .null)) ⟨some ⟨"", ""⟩, some [], []⟩).2.status =
      some ⟨"Failed to fetch average price.", "status-error"⟩ ∧
    (handleAverageClick (.response 200 (.json .null)) ⟨some ⟨"", ""⟩, some [], []⟩).2.status ≠
      some ⟨"No valid prices available to calculate an average.", "status-info"⟩ := by
  decide

/-- Trimming a string made only of white space leaves nothing. -/
theorem trimChars_blank (cs : List Char) (h : cs.all isJSWhiteSpace = true) :
    trimChars cs = [] := by
  have h1 : cs.dropWhile isJSWhiteSpace = [] := by
    rw [List.dropWhile_eq_nil_iff]
    intro c hc
    exact List.all_eq_true.1 h c hc
  simp [trimChars, h1]

/-- The name of an entry whose `name` is not a string, or is a string made only
of white space, is the placeholder. -/
theorem safeName_unknown (med v : JSValue) (hget : getProp med "name" = .ok v)
    (hbad : ∀ s, v = .str s → s.data.all isJSWhiteSpace = true) :
    safeName med = .ok "Unknown name" := by
  unfold safeName
  rw [hget]
  cases v with
  | str s =>
    have := trimChars_blank s.data (hbad s rfl)
    simp [truthy, jsTrim, this]
  | _ => rfl

/-- An entry that is not `null` and whose price converts to a number yields its
row of two cells, the name and the price text. -/
theorem renderRow_ok (med : JSValue) (h1 : med ≠ .undefined) (h2 : med ≠ .null)
    (h3 : ∀ price, getProp med "price" = .ok price → ∃ x, toNumber price = .ok x) :
    ∃ name text, safeName med = .ok name ∧ safePriceDisplay med = .ok text ∧
      renderRow med = .ok [⟨name, 1⟩, ⟨text, 1⟩] := by
  obtain ⟨name, hn⟩ := safeName_ok med h1 h2
  obtain ⟨text, hp⟩ := safePriceDisplay_ok med h1 h2 h3
  exact ⟨name, text, hn, hp, by simp [renderRow, hn, hp]⟩

/-- The loop keeps the rows it was given and puts the row of entry `i` at
position `i` after them, for every entry up to which no entry throws. -/
theorem renderRows_rows (meds : List JSValue) (rows0 : List Row) :
    ∃ more, (renderRows meds rows0).2 = rows0 ++ more ∧
      ∀ (i : Nat) (med : JSValue), meds[i]? = some med →
        (∀ j, j ≤ i → ∀ m, meds[j]? = some m → ∃ row, renderRow m = .ok row) →
        ∃ row, renderRow med = .ok row ∧ more[i]? = some row := by
  induction meds generalizing rows0 with
  | nil => exact ⟨[], by simp [renderRows], by intro i med h; simp at h⟩
  | cons med0 rest ih =>
    cases h0 : renderRow med0 with
    | error t =>
      refine ⟨[], by simp [renderRows, h0], ?_⟩
      intro i med _ hall
      obtain ⟨row, hrow⟩ := hall 0 (Nat.zero_le _) med0 (by simp)
      rw [h0] at hrow
      cases hrow
    | ok row0 =>
      obtain ⟨more, hmore, hspec⟩ := ih (rows0 ++ [row0])
      refine ⟨row0 :: more, by simp [renderRows, h0, hmore], ?_⟩
      intro i med hi hall
      cases i with
      | zero =>
        simp only [List.getElem?_cons_zero, Option.some.injEq] at hi
        subst hi
        exact ⟨row0, h0, by simp⟩
      | succ k =>
        simp only [List.getElem?_cons_succ] at hi
        obtain ⟨row, hr, hk⟩ := hspec k med hi
          (fun j hj m hm => hall (j + 1) (by omega) m (by simpa using hm))
        exact ⟨row, hr, by simpa using hk⟩

/-- The loop started on an empty table puts the row of entry `i`, its name cell
and its price cell, at position `i`, whenever no entry up to `i` is `null` or
has a price that does not convert. -/
theorem renderRows_row (meds : List JSValue) (i : Nat) (med : JSValue)
    (hi : meds[i]? = some med)
    (hbefore : ∀ j, j ≤ i → ∀ m, meds[j]? = some m → m ≠ .undefined ∧ m ≠ .null ∧
      ∀ pr, getProp m "price" = .ok pr → ∃ x, toNumber pr = .ok x) :
    ∃ name text, (renderRows meds []).2[i]? = some [⟨name, 1⟩, ⟨text, 1⟩] ∧
      safeName med = .ok name ∧ safePriceDisplay med = .ok text := by
  have hall : ∀ j, j ≤ i → ∀ m, meds[j]? = some m → ∃ row, renderRow m = .ok row := by
    intro j hj m hm
    obtain ⟨h1, h2, h3⟩ := hbefore j hj m hm
    obtain ⟨name, text, _, _, hr⟩ := renderRow_ok m h1 h2 h3
    exact ⟨_, hr⟩
  obtain ⟨h1, h2, h3⟩ := hbefore i (le_refl _) med hi
  obtain ⟨name, text, hn, hp, hr⟩ := renderRow_ok med h1 h2 h3
  obtain ⟨more, hmore, hspec⟩ := renderRows_rows meds []
  obtain ⟨row, hrow, hget⟩ := hspec i med hi hall
  rw [hr] at hrow
  injection hrow with hrow
  subst hrow
  rw [List.nil_append] at hmore
  exact ⟨name, text, by rw [hmore]; exact hget, hn, hp⟩

/-- C2, as amended: on a page with a table body, for every entry of the array
given to `renderMedicines` that the loop reaches and completes (no entry up to
and including it is `null` or has a price on which `Number(...)` throws) and
whose `name` is not a string (number, boolean, `null`, object, array, or
missing) or is a string made only of white space (the empty string included),
the table body has the row of the entry at the position of the entry, and the
name cell of that row, the first of its two cells, holds exactly
"Unknown name". -/
theorem C2_unknown_name (meds : List JSValue) (p : Page) (rows0 : List Row) (i : Nat)
    (med v : JSValue) (htb : p.tbody = some rows0) (hi : meds[i]? = some med)
    (hbefore : ∀ j, j ≤ i → ∀ m, meds[j]? = some m → m ≠ .undefined ∧ m ≠ .null ∧
      ∀ pr, getProp m "price" = .ok pr → ∃ x, toNumber pr = .ok x)
    (hget : getProp med "name" = .ok v)
    (hbad : ∀ s, v = .str s → s.data.all isJSWhiteSpace = true) :
    ∃ rows text, (renderMedicines (.arr meds) p).2.tbody = some rows ∧
      rows[i]? = some [⟨"Unknown name", 1⟩, ⟨text, 1⟩] := by
  obtain ⟨name, text, hrow, hn, _⟩ := renderRows_row meds i med hi hbefore
  rw [safeName_unknown med v hget hbad] at hn
  injection hn with hn
  subst hn
  have htbody : (renderMedicines (.arr meds) p).2.tbody = some (renderRows meds []).2 := by
    cases meds with
    | nil => simp at hi
    | cons m ms => simp [renderMedicines, Page.log, htb]
  exact ⟨(renderRows meds []).2, text, htbody, hrow⟩

/-- C2 as amended, at an array whose second entry has a name of a tab and two
spaces: the second row of the table starts with "Unknown name". -/
theorem C2_unknown_name_witness :
    ∃ rows text,
      (renderMedicines
        (.arr [.obj [("name", .str "Aspirin"), ("price", .num (.fin false 9 (-1)))],
          .obj [("name", .str "\t  "), ("price", .num (.fin false 5 0))]])
        ⟨some ⟨"", ""⟩, some [[⟨"No medicines available.", 2⟩]], []⟩).2.tbody = some rows ∧
      rows[1]? = some [⟨"Unknown name", 1⟩, ⟨text, 1⟩] :=
  C2_unknown_name
    [.obj [("name", .str "Aspirin"), ("price", .num (.fin false 9 (-1)))],
      .obj [("name", .str "\t  "), ("price", .num (.fin false 5 0))]]
    ⟨some ⟨"", ""⟩, some [[⟨"No medicines available.", 2⟩]], []⟩
    [[⟨"No medicines available.", 2⟩]] 1
    (.obj [("name", .str "\t  "), ("price", .num (.fin false 5 0))]) (.str "\t  ") rfl rfl
    (by
      intro j hj m hm
      have hcases : j = 0 ∨ j = 1 := by omega
      rcases hcases with rfl | rfl
      · simp only [List.getElem?_cons_zero, Option.some.injEq] at hm
        subst hm
        refine ⟨(by intro h; cases h), (by intro h; cases h), ?_⟩
        intro pr hpr
        cases hpr
        exact ⟨_, rfl⟩
      · simp only [List.getElem?_cons_succ, List.getElem?_cons_zero, Option.some.injEq] at hm
        subst hm
        refine ⟨(by intro h; cases h), (by intro h; cases h), ?_⟩
        intro pr hpr
        cases hpr
        exact ⟨_, rfl⟩)
    rfl (by intro s hs; cases hs; decide)

/-- C2 fails as stated: the entry with the empty name and a price that is an
object with an own `toString` property is given to `renderMedicines`, but
`Number(med.price)` throws before its row is built; the call raises a TypeError
and the cleared table body holds no row, hence no name cell that reads
"Unknown name". -/
theorem C2_counterexample_no_name_cell :
    (renderMedicines (.arr [.obj [("name", .str ""), ("price", .obj [("toString", .null)])]])
        ⟨some ⟨"", ""⟩, some [[⟨"Aspirin", 1⟩, ⟨"4.50", 1⟩]], []⟩).1 = .error .typeError ∧
    (renderMedicines (.arr [.obj [("name", .str ""), ("price", .obj [("toString", .null)])]])
        ⟨some ⟨"", ""⟩, some [[⟨"Aspirin", 1⟩, ⟨"4.50", 1⟩]], []⟩).2.tbody = some [] := by
  decide

theorem digitChar_isDigit (k : Nat) (hk : k < 10) : (Nat.digitChar k).isDigit = true := by
  interval_cases k <;> decide

theorem toDigitsCore_isDigit (fuel n : Nat) (ds : List Char)
    (hds : ∀ c ∈ ds, c.isDigit = true) :
    ∀ c ∈ Nat.toDigitsCore 10 fuel n ds, c.isDigit = true := by
  induction fuel generalizing n ds with
  | zero => simpa [Nat.toDigitsCore] using hds
  | succ fuel ih =>
    have hd : (Nat.digitChar (n % 10)).isDigit = true :=
      digitChar_isDigit _ (Nat.mod_lt _ (by decide))
    have hcons : ∀ c ∈ Nat.digitChar (n % 10) :: ds, c.isDigit = true := by
      intro c hc
      rcases List.mem_cons.1 hc with rfl | hc
      · exact hd
      · exact hds c hc
    unfold Nat.toDigitsCore
    simp only
    split
    · exact hcons
    · exact ih _ _ hcons

/-- The decimal digits of a number are digits. -/
theorem natDigits_isDigit (n : Nat) : ∀ c ∈ natDigits n, c.isDigit = true :=
  toDigitsCore_isDigit _ _ [] (by simp)

/-- Two digits follow the point in `toFixed(2)` of a finite number below
`10^21` in magnitude, and at least one digit precedes it. -/
theorem toFixed2_two_decimals (neg : Bool) (m : Nat) (e : Int)
    (h : (dyadicFrac m e).1 < 10 ^ 21 * (dyadicFrac m e).2) :
    ∃ intPart d1 d2, (toFixed2 (.fin neg m e)).data =
        (if neg = true ∧ m ≠ 0 then ['-'] else []) ++ intPart ++ ['.', d1, d2] ∧
      intPart ≠ [] ∧ (∀ c ∈ intPart, c.isDigit = true) ∧
      d1.isDigit = true ∧ d2.isDigit = true := by
  generalize hds : List.replicate
    (3 - (natDigits ((200 * (dyadicFrac m e).1 + (dyadicFrac m e).2) /
      (2 * (dyadicFrac m e).2))).length) '0' ++
    natDigits ((200 * (dyadicFrac m e).1 + (dyadicFrac m e).2) / (2 * (dyadicFrac m e).2)) = ds
  have hlen : 3 ≤ ds.length := by
    rw [← hds, List.length_append, List.length_replicate]
    omega
  have hdig : ∀ c ∈ ds, c.isDigit = true := by
    intro c hc
    rw [← hds] at hc
    rcases List.mem_append.1 hc with hc | hc
    · rw [List.eq_of_mem_replicate hc]; decide
    · exact natDigits_isDigit _ c hc
  have hfix : (toFixed2 (.fin neg m e)).data =
      (if neg = true ∧ m ≠ 0 then ['-'] else []) ++ ds.take (ds.length - 2) ++ ['.'] ++
        ds.drop (ds.length - 2) := by
    unfold toFixed2
    simp only [not_le.2 h, if_false, hds]
  have hdrop : (ds.drop (ds.length - 2)).length = 2 := by
    rw [List.length_drop]; omega
  obtain ⟨d1, d2, hd⟩ : ∃ d1 d2, ds.drop (ds.length - 2) = [d1, d2] := by
    match hm : ds.drop (ds.length - 2), hdrop with
    | [a, b], _ => exact ⟨a, b, rfl⟩
  refine ⟨ds.take (ds.length - 2), d1, d2, ?_, ?_, ?_, ?_, ?_⟩
  · rw [hfix, hd]; simp
  · intro hnil
    have := congrArg List.length hnil
    rw [List.length_take] at this
    simp only [List.length_nil] at this
    omega
  · intro c hc
    exact hdig c (List.mem_of_mem_take hc)
  · exact hdig d1 (List.mem_of_mem_drop (by rw [hd]; simp))
  · exact hdig d2 (List.mem_of_mem_drop (by rw [hd]; simp))

/-- The price text of an entry whose `price` can be read: "N/A" for `null`,
missing and `NaN`, `toFixed(2)` of the number otherwise. -/
theorem safePriceDisplay_cases (med price : JSValue) (hget : getProp med "price" = .ok price) :
    ((isNullish price = true ∨ toNumber price = .ok .nan) →
      safePriceDisplay med = .ok "N/A") ∧
    (∀ x, isNullish price = false → toNumber price = .ok x → x ≠ .nan →
      safePriceDisplay med = .ok (toFixed2 x)) := by
  refine ⟨fun h => ?_, fun x hnn hx hnan => ?_⟩
  · unfold safePriceDisplay
    rw [hget]
    rcases h with h | h
    · cases price <;> simp_all [isNullish]
    · cases price <;> simp_all
  · unfold safePriceDisplay
    rw [hget]
    cases price with
    | undefined => simp [isNullish] at hnn
    | null => simp [isNullish] at hnn
    | _ => cases x <;> simp_all

/-- C1, as amended: on a page with a table body, for every entry of the array
given to `renderMedicines` that the loop reaches and completes (no entry up to
and including it is `null` or has a price on which `Number(...)` throws), the
table body has the row of the entry at the position of the entry, and the
price cell of that row, the second of its two cells, holds exactly "N/A" when
the price is `null` or missing or `Number(price)` is `NaN`, and
`Number(price).toFixed(2)` otherwise; that text has exactly two digits after
the decimal point, and at least one before it, whenever the number is finite
and below `10^21` in magnitude. -/
theorem C1_price_cell (meds : List JSValue) (p : Page) (rows0 : List Row) (i : Nat)
    (med price : JSValue) (htb : p.tbody = some rows0) (hi : meds[i]? = some med)
    (hbefore : ∀ j, j ≤ i → ∀ m, meds[j]? = some m → m ≠ .undefined ∧ m ≠ .null ∧
      ∀ pr, getProp m "price" = .ok pr → ∃ x, toNumber pr = .ok x)
    (hget : getProp med "price" = .ok price) :
    ∃ rows name text, (renderMedicines (.arr meds) p).2.tbody = some rows ∧
      rows[i]? = some [⟨name, 1⟩, ⟨text, 1⟩] ∧
      ((isNullish price = true ∨ toNumber price = .ok .nan) → text = "N/A") ∧
      (∀ x, isNullish price = false → toNumber price = .ok x → x ≠ .nan →
        text = toFixed2 x) ∧
      (∀ neg m e, isNullish price = false → toNumber price = .ok (.fin neg m e) →
        (dyadicFrac m e).1 < 10 ^ 21 * (dyadicFrac m e).2 →
        ∃ intPart d1 d2, text.data =
            (if neg = true ∧ m ≠ 0 then ['-'] else []) ++ intPart ++ ['.', d1, d2] ∧
          intPart ≠ [] ∧ (∀ c ∈ intPart, c.isDigit = true) ∧
          d1.isDigit = true ∧ d2.isDigit = true) := by
  obtain ⟨name, text, hrow, _, hp⟩ := renderRows_row meds i med hi hbefore
  have htbody : (renderMedicines (.arr meds) p).2.tbody = some (renderRows meds []).2 := by
    cases meds with
    | nil => simp at hi
    | cons m ms => simp [renderMedicines, Page.log, htb]
  obtain ⟨hna, hfix⟩ := safePriceDisplay_cases med price hget
  have hfixed : ∀ x, isNullish price = false → toNumber price = .ok x → x ≠ .nan →
      text = toFixed2 x := by
    intro x hnn hx hnan
    have := hfix x hnn hx hnan
    rw [hp] at this
    injection this
  refine ⟨(renderRows meds []).2, name, text, htbody, hrow, ?_, hfixed, ?_⟩
  · intro h
    have := hna h
    rw [hp] at this
    injection this
  · intro neg m e hnn hx hlt
    rw [hfixed (.fin neg m e) hnn hx (by intro h; cases h)]
    exact toFixed2_two_decimals neg m e hlt

/-- C1 as amended, at an array holding the two examples of the claim, the
number 5 and the string "3.5", and a price that is not numeric: the price
cells read "5.00", "3.50" and "N/A". -/
theorem C1_price_cell_witness :
    (renderMedicines
      (.arr [.obj [("name", .str "Aspirin"), ("price", .num (.fin false 5 0))],
        .obj [("name", .str "Ibuprofen"), ("price", .str "3.5")],
        .obj [("name", .str "Zinc"), ("price", .str "abc")]])
      ⟨some ⟨"", ""⟩, some [], []⟩).2.tbody =
      some [[⟨"Aspirin", 1⟩, ⟨"5.00", 1⟩], [⟨"Ibuprofen", 1⟩, ⟨"3.50", 1⟩],
        [⟨"Zinc", 1⟩, ⟨"N/A", 1⟩]] ∧
    ∃ rows name text,
      (renderMedicines
        (.arr [.obj [("name", .str "Aspirin"), ("price", .num (.fin false 5 0))],
          .obj [("name", .str "Ibuprofen"), ("price", .str "3.5")],
          .obj [("name", .str "Zinc"), ("price", .str "abc")]])
        ⟨some ⟨"", ""⟩, some [], []⟩).2.tbody = some rows ∧
      rows[1]? = some [⟨name, 1⟩, ⟨text, 1⟩] ∧ text = "3.50" := by
  refine ⟨by decide, ?_⟩
  obtain ⟨rows, name, text, h1, h2, _, h4, _⟩ := C1_price_cell
    [.obj [("name", .str "Aspirin"), ("price", .num (.fin false 5 0))],
      .obj [("name", .str "Ibuprofen"), ("price", .str "3.5")],
      .obj [("name", .str "Zinc"), ("price", .str "abc")]]
    ⟨some ⟨"", ""⟩, some [], []⟩ [] 1
    (.obj [("name", .str "Ibuprofen"), ("price", .str "3.5")]) (.str "3.5") rfl rfl
    (by
      intro j hj m hm
      have hcases : j = 0 ∨ j = 1 := by omega
      rcases hcases with rfl | rfl
      · simp only [List.getElem?_cons_zero, Option.some.injEq] at hm
        subst hm
        refine ⟨(by intro h; cases h), (by intro h; cases h), ?_⟩
        intro pr hpr
        cases hpr
        exact ⟨_, rfl⟩
      · simp only [List.getElem?_cons_succ, List.getElem?_cons_zero, Option.some.injEq] at hm
        subst hm
        refine ⟨(by intro h; cases h), (by intro h; cases h), ?_⟩
        intro pr hpr
        cases hpr
        exact ⟨_, rfl⟩)
    rfl
  have htext : toFixed2 (stringToNumber "3.5") = "3.50" := by decide
  exact ⟨rows, name, text, h1, h2, (h4 (stringToNumber "3.5") rfl rfl (by decide)).trans htext⟩

/-- C1 fails as stated: `Number` turns the empty string, a string of white
space, `false` and the empty array into 0 and `true` into 1, so these prices
render as "0.00" and "1.00" instead of "N/A"; the string "Infinity" renders
as "Infinity" and the number `10^21` as "1e+21", neither with two digits after
a decimal point. -/
theorem C1_counterexample_coerced_prices :
    (renderMedicines (.arr [.obj [("name", .str "Aspirin"), ("price", .str "")]])
        ⟨some ⟨"", ""⟩, some [], []⟩).2.tbody = some [[⟨"Aspirin", 1⟩, ⟨"0.00", 1⟩]] ∧
    safePriceDisplay (.obj [("price", .str "")]) = .ok "0.00" ∧
    safePriceDisplay (.obj [("price", .str " \t ")]) = .ok "0.00" ∧
    safePriceDisplay (.obj [("price", .bool false)]) = .ok "0.00" ∧
    safePriceDisplay (.obj [("price", .bool true)]) = .ok "1.00" ∧
    safePriceDisplay (.obj [("price", .arr [])]) = .ok "0.00" ∧
    safePriceDisplay (.obj [("price", .str "Infinity")]) = .ok "Infinity" ∧
    safePriceDisplay (.obj [("price", .num (.fin false (5 ^ 21) 21))]) = .ok "1e+21" := by
  decide!

end LillyTask
